import Mathlib

/-!
# Shallow embedding of the chimie stock-ledger core

This file embeds the stock-movement ledger and inventory-submission
approval workflow of the repository (mainly `src/services/dataService.ts`
and the depot submission handler `handleSubmitInventory` in the depot
inventory component) and proves the frozen claims about them.

Modelling conventions:
* The persistent store is a `DB` record holding the `products`,
  `stock_movements` and `inventory_submissions` tables as lists.
  A ledger insert conses the new row onto `movements`.
* Every remote call that can fail in the source takes an explicit
  `Option String` error knob: `none` means the call succeeds, `some e`
  means the store reported error `e` (so the corresponding write does
  not happen).  This mirrors the supabase client, whose promises
  *resolve* with an `error` field instead of rejecting; call sites that
  `throw` on that field are modelled by propagating the knob, call
  sites that ignore the field are modelled by dropping it.
* `Date.now()` is a `Nat` parameter `now`; ISO timestamps written into
  rows are opaque `String` parameters.  Store-generated ids are
  `String` parameters.
* Stock quantities are JS numbers used as integers; they are `Int`.
* `Promise.all` batches (submission approval, bulk inventory set) are
  modelled as a left-to-right fold of the independent per-item
  pipelines with no early abort: an item failure marks the batch as
  failed but the remaining items still run, matching the absence of
  cooperative cancellation in the source.
-/

namespace Chimie

/-- `types.ts`: `Role`. -/
inductive Role where
  | admin
  | depot
deriving Repr, DecidableEq

/-- `types.ts`: `User` (the fields the data layer reads). -/
structure User where
  id : String
  firstName : String
  lastName : String
  email : String
  service : String
  phone : String
  role : Role
deriving Repr, DecidableEq

/-- `types.ts`: `Product`. -/
structure Product where
  id : String
  name : String
  code : String
  cas : String
  formula : String
  location : String
  stock : Int
  unit : String
  alertThreshold : Int
  imageUrl : Option String
  safetySheetUrl : Option String
  ghsPictograms : List String
  created_at : String
  updated_at : String
  expiryDate : String
deriving Repr, DecidableEq

/-- `types.ts`: the `change_type` enum of `StockMovement`. -/
inductive ChangeType where
  | initial
  | update
  | correction
  | imported
  | submission
  | consumption
  | admin_entry
  | admin_exit
  | inventory_count
deriving Repr, DecidableEq

/-- `types.ts`: `StockMovement` without the store-generated `id` and
`created_at` columns (the shape passed to `addStockMovement`). -/
structure MovementRow where
  product_id : String
  product_name : String
  user_id : String
  user_name : String
  change_type : ChangeType
  quantity_change : Int
  old_stock_level : Int
  new_stock_level : Int
  transaction_ref : String
deriving Repr, DecidableEq

/-- `types.ts`: `InventoryItem`. -/
structure InventoryItem where
  productId : String
  name : String
  quantity : Int
deriving Repr, DecidableEq

/-- `types.ts`: the `status` field of `InventorySubmission`. -/
inductive SubmissionStatus where
  | pending
  | approved
  | rejected
deriving Repr, DecidableEq

/-- `types.ts`: `InventorySubmission`. -/
structure InventorySubmission where
  id : String
  depotId : String
  depotName : String
  items : List InventoryItem
  status : SubmissionStatus
  created_at : String
deriving Repr, DecidableEq

/-- The persistent store: the three tables the ledger core touches. -/
structure DB where
  products : List Product
  movements : List MovementRow
  submissions : List InventorySubmission
deriving Repr, DecidableEq

/-- `dataService.ts` line 15: ``${prefix.toUpperCase()}-${Date.now()}``. -/
def generateTransactionRef (pre : String) (now : Nat) : String :=
  pre.toUpper ++ "-" ++ toString now

/-- `supabase.from('products').select(...).eq('id', pid).single()`:
`id` is the table's primary key, so at most one row matches. -/
def findProduct (db : DB) (pid : String) : Option Product :=
  db.products.find? (fun p => p.id == pid)

/-- `supabase.from('products').update({ stock }).eq('id', pid)`. -/
def setStock (db : DB) (pid : String) (s : Int) : DB :=
  { db with
    products := db.products.map (fun p => if p.id == pid then { p with stock := s } else p) }

/-- `supabase.from('inventory_submissions').update({ status }).eq('id', sid)`
(`updateSubmissionStatus`, line 226), with the write succeeding. -/
def setSubmissionStatus (db : DB) (sid : String) (status : SubmissionStatus) : DB :=
  { db with
    submissions := db.submissions.map
      (fun s => if s.id == sid then { s with status := status } else s) }

/-- `dataService.ts` line 279: `addStockMovement` inserts one row into
`stock_movements` and resolves with the insert's error field. -/
def addStockMovement (db : DB) (movement : MovementRow) (insertErr : Option String) :
    DB × Option String :=
  match insertErr with
  | some e => (db, some e)
  | none => ({ db with movements := movement :: db.movements }, none)

/-- `dataService.ts` line 44: `addProduct`.  `newId`/`createdAt` stand for the
store-generated id and timestamps of the inserted row.  The ledger call's
result is awaited but never inspected, so `ledgerErr` does not affect the
returned error. -/
def addProduct (db : DB) (product : Product) (user : User) (now : Nat)
    (newId createdAt : String) (insertErr ledgerErr : Option String) :
    DB × Option String :=
  match insertErr with
  | some e => (db, some e)
  | none =>
    let data : Product :=
      { product with
        id := newId
        created_at := createdAt
        updated_at := createdAt }
    let db1 : DB := { db with products := data :: db.products }
    let r := addStockMovement db1
      { product_id := data.id
        product_name := data.name
        user_id := user.id
        user_name := user.firstName ++ " " ++ user.lastName
        change_type := ChangeType.initial
        quantity_change := data.stock
        old_stock_level := 0
        new_stock_level := data.stock
        transaction_ref := generateTransactionRef "CRE" now }
      ledgerErr
    (r.1, none)

/-- `dataService.ts` lines 84–98: the product-row update performed by
`updateProduct` (columns listed in the source; `id` and `created_at`
are untouched, `updated_at` is set to the current ISO timestamp). -/
def applyProductUpdate (db : DB) (product : Product) (nowIso : String) : DB :=
  { db with
    products := db.products.map (fun p =>
      if p.id == product.id then
        { p with
          name := product.name
          code := product.code
          cas := product.cas
          formula := product.formula
          location := product.location
          stock := product.stock
          unit := product.unit
          alertThreshold := product.alertThreshold
          imageUrl := product.imageUrl
          safetySheetUrl := product.safetySheetUrl
          ghsPictograms := product.ghsPictograms
          expiryDate := product.expiryDate
          updated_at := nowIso }
      else p) }

/-- `dataService.ts` line 77: `updateProduct`.  Reads the stored stock,
writes all columns, and emits a `MAJ` ledger row only when the stock
delta is non-zero and the update succeeded.  A missing product makes
the initial `.single()` read fail (`PGRST116`).  The ledger call's
result is not inspected. -/
def updateProduct (db : DB) (product : Product) (user : User) (now : Nat)
    (nowIso : String) (fetchErr updateErr ledgerErr : Option String) :
    DB × Option String :=
  match fetchErr with
  | some e => (db, some e)
  | none =>
    match findProduct db product.id with
    | none => (db, some "PGRST116")
    | some originalProduct =>
      let oldStock := originalProduct.stock
      let quantityChange := product.stock - oldStock
      match updateErr with
      | some e => (db, some e)
      | none =>
        let db1 := applyProductUpdate db product nowIso
        if quantityChange ≠ 0 then
          let r := addStockMovement db1
            { product_id := product.id
              product_name := product.name
              user_id := user.id
              user_name := user.firstName ++ " " ++ user.lastName
              change_type := ChangeType.update
              quantity_change := quantityChange
              old_stock_level := oldStock
              new_stock_level := product.stock
              transaction_ref := generateTransactionRef "MAJ" now }
            ledgerErr
          (r.1, none)
        else (db1, none)

/-- `dataService.ts` line 283: `depotRecordConsumption`.  Uses the stock of
the product object handed in by the caller, rejects before any write when
the result would be negative, and ignores the ledger insert's result. -/
def depotRecordConsumption (db : DB) (product : Product) (quantity : Int)
    (user : User) (now : Nat) (updateErr ledgerErr : Option String) :
    DB × Option String :=
  let oldStock := product.stock
  let newStock := oldStock - quantity
  if newStock < 0 then
    (db, some "La quantité consommée ne peut pas dépasser le stock disponible.")
  else
    match updateErr with
    | some e => (db, some e)
    | none =>
      let db1 := setStock db product.id newStock
      let r := addStockMovement db1
        { product_id := product.id
          product_name := product.name
          user_id := user.id
          user_name := user.firstName ++ " " ++ user.lastName
          change_type := ChangeType.consumption
          quantity_change := -quantity
          old_stock_level := oldStock
          new_stock_level := newStock
          transaction_ref := generateTransactionRef "CON" now }
        ledgerErr
      (r.1, none)

/-- The `movementType` argument of `adminCreateMovement`. -/
inductive AdminMovementType where
  | admin_entry
  | admin_exit
deriving Repr, DecidableEq

/-- `movementType === 'admin_entry' ? quantity : -quantity` (line 319). -/
def adminQuantityChange (movementType : AdminMovementType) (quantity : Int) : Int :=
  match movementType with
  | AdminMovementType.admin_entry => quantity
  | AdminMovementType.admin_exit => -quantity

/-- `dataService.ts` line 313: `adminCreateMovement`.  Fetches the product
(a fetch error or missing row both raise "Produit introuvable."), rejects a
negative result before the write, and ignores the ledger insert's result. -/
def adminCreateMovement (db : DB) (productId : String) (quantity : Int)
    (movementType : AdminMovementType) (adminUser : User) (now : Nat)
    (fetchErr updateErr ledgerErr : Option String) : DB × Option String :=
  if fetchErr.isSome then (db, some "Produit introuvable.")
  else
    match findProduct db productId with
    | none => (db, some "Produit introuvable.")
    | some product =>
      let oldStock := product.stock
      let quantityChange := adminQuantityChange movementType quantity
      let newStock := oldStock + quantityChange
      if newStock < 0 then
        (db, some "Le stock ne peut pas être négatif.")
      else
        match updateErr with
        | some e => (db, some e)
        | none =>
          let db1 := setStock db productId newStock
          let refPre :=
            match movementType with
            | AdminMovementType.admin_entry => "ENT"
            | AdminMovementType.admin_exit => "SOR"
          let changeType :=
            match movementType with
            | AdminMovementType.admin_entry => ChangeType.admin_entry
            | AdminMovementType.admin_exit => ChangeType.admin_exit
          let r := addStockMovement db1
            { product_id := product.id
              product_name := product.name
              user_id := adminUser.id
              user_name := adminUser.firstName ++ " " ++ adminUser.lastName
              change_type := changeType
              quantity_change := quantityChange
              old_stock_level := oldStock
              new_stock_level := newStock
              transaction_ref := generateTransactionRef refPre now }
            ledgerErr
          (r.1, none)

/-- Error knobs for one item of an `approveSubmission` batch: the stock
read, the stock write, and the ledger insert. -/
structure ItemErrs where
  fetchErr : Option String
  updateErr : Option String
  ledgerErr : Option String
deriving Repr, DecidableEq

/-- `dataService.ts` lines 236–258: the per-item pipeline of
`approveSubmission`.  Reads the product's current stock (`.single()`, so a
missing row is the `PGRST116` error), writes `item.quantity` as the new
absolute stock, and appends one `submission` ledger row carrying the
batch's shared `transaction_ref`.  Only the read and the write `throw`;
the pipeline ends by returning the ledger insert's resolved result, whose
error field never rejects the item's promise. -/
def approveItem (db : DB) (adminUser : User) (ref : String) (item : InventoryItem)
    (e : ItemErrs) : DB × Option String :=
  match e.fetchErr with
  | some err => (db, some err)
  | none =>
    match findProduct db item.productId with
    | none => (db, some "PGRST116")
    | some p =>
      let oldStock := p.stock
      let newStock := item.quantity
      let quantityChange := newStock - oldStock
      match e.updateErr with
      | some err => (db, some err)
      | none =>
        let db1 := setStock db item.productId newStock
        let r := addStockMovement db1
          { product_id := item.productId
            product_name := item.name
            user_id := adminUser.id
            user_name := adminUser.firstName ++ " " ++ adminUser.lastName ++ " (Approbation)"
            change_type := ChangeType.submission
            quantity_change := quantityChange
            old_stock_level := oldStock
            new_stock_level := newStock
            transaction_ref := ref }
          e.ledgerErr
        (r.1, none)

/-- The `Promise.all(updates)` join of `approveSubmission`: every item's
pipeline runs (there is no cancellation of siblings after a failure, so
later items still execute), and the batch is failed when any item threw.
`errOf i` supplies the error knobs of the `i`-th item. -/
def approveItems (db : DB) (adminUser : User) (ref : String)
    (items : List InventoryItem) (errOf : Nat → ItemErrs) (i : Nat) : DB × Bool :=
  match items with
  | [] => (db, false)
  | item :: rest =>
    let r := approveItem db adminUser ref item (errOf i)
    let rs := approveItems r.1 adminUser ref rest errOf (i + 1)
    (rs.1, r.2.isSome || rs.2)

/-- `dataService.ts` line 230: `approveSubmission`.  Sets the status to
`approved` (aborting on failure), generates one `INV` transaction reference
up front, runs the item batch, and on any item failure reverts the status
to `pending` (a best-effort write whose own result is not inspected:
`revertErr` set means the revert write was lost) and returns one aggregated
error. -/
def approveSubmission (db : DB) (submission : InventorySubmission) (adminUser : User)
    (now : Nat) (statusErr revertErr : Option String) (errOf : Nat → ItemErrs) :
    DB × Option String :=
  match statusErr with
  | some e => (db, some e)
  | none =>
    let db0 := setSubmissionStatus db submission.id SubmissionStatus.approved
    let transaction_ref := generateTransactionRef "INV" now
    let r := approveItems db0 adminUser transaction_ref submission.items errOf 0
    if r.2 then
      let db2 :=
        match revertErr with
        | some _ => r.1
        | none => setSubmissionStatus r.1 submission.id SubmissionStatus.pending
      (db2, some "Une erreur est survenue lors de la mise à jour des stocks. La soumission a été remise en attente.")
    else (r.1, none)

/-- `supabase.from('products').select('*').eq('code', code).eq('location', depotName).single()`
in `setDepotInventory`: `(code, location)` is not a key, so `.single()`
succeeds only when exactly one row matches; zero matches is the ignorable
`PGRST116` error, several matches a real error. -/
def findByCodeAndLocation (db : DB) (code depotName : String) : List Product :=
  db.products.filter (fun p => p.code == code && p.location == depotName)

/-- Error knobs for one pair of a `setDepotInventory` call: the lookup, the
product write (update or insert), and the ledger insert. -/
structure SetItemErrs where
  findErr : Option String
  writeErr : Option String
  ledgerErr : Option String
deriving Repr, DecidableEq

/-- `dataService.ts` lines 354–427: the loop body of `setDepotInventory`
for one `(product, newStock)` pair.  A non-`PGRST116` lookup failure skips
the pair (`continue`).  In the update branch neither the stock write's nor
the ledger insert's error is inspected (`.then(() => ...)`), so that
branch never rejects; in the create branch an insert failure `throws`
(second component `true`) while the ledger insert's result is returned
uninspected.  The created row copies the master product's attributes but
the insert lists no `image_url`/`safety_sheet_url` columns. -/
def setDepotItem (db : DB) (depotName : String) (adminUser : User) (ref : String)
    (product : Product) (newStock : Int) (newId createdAt : String)
    (e : SetItemErrs) : DB × Bool :=
  if e.findErr.isSome then (db, false)
  else
    match findByCodeAndLocation db product.code depotName with
    | [existingProduct] =>
      let oldStock := existingProduct.stock
      if oldStock ≠ newStock then
        let db1 :=
          match e.writeErr with
          | some _ => db
          | none => setStock db existingProduct.id newStock
        let r := addStockMovement db1
          { product_id := existingProduct.id
            product_name := existingProduct.name
            user_id := adminUser.id
            user_name := adminUser.firstName ++ " " ++ adminUser.lastName
            change_type := ChangeType.inventory_count
            quantity_change := newStock - oldStock
            old_stock_level := oldStock
            new_stock_level := newStock
            transaction_ref := ref }
          e.ledgerErr
        (r.1, false)
      else (db, false)
    | [] =>
      if newStock > 0 then
        match e.writeErr with
        | some _ => (db, true)
        | none =>
          let data : Product :=
            { product with
              id := newId
              location := depotName
              stock := newStock
              imageUrl := none
              safetySheetUrl := none
              created_at := createdAt
              updated_at := createdAt }
          let db1 : DB := { db with products := data :: db.products }
          let r := addStockMovement db1
            { product_id := data.id
              product_name := data.name
              user_id := adminUser.id
              user_name := adminUser.firstName ++ " " ++ adminUser.lastName
              change_type := ChangeType.initial
              quantity_change := newStock
              old_stock_level := 0
              new_stock_level := newStock
              transaction_ref := ref }
            e.ledgerErr
          (r.1, false)
      else (db, false)
    | _ :: _ :: _ => (db, false)

/-- The loop plus `Promise.all` join of `setDepotInventory` over the
inventory list; `errOf i` and `newIdOf i` supply the `i`-th pair's error
knobs and store-generated id. -/
def setDepotItems (db : DB) (depotName : String) (adminUser : User) (ref : String)
    (inventory : List (Product × Int)) (errOf : Nat → SetItemErrs)
    (newIdOf : Nat → String) (createdAt : String) (i : Nat) : DB × Bool :=
  match inventory with
  | [] => (db, false)
  | (product, newStock) :: rest =>
    let r := setDepotItem db depotName adminUser ref product newStock (newIdOf i) createdAt
      (errOf i)
    let rs := setDepotItems r.1 depotName adminUser ref rest errOf newIdOf createdAt (i + 1)
    (rs.1, r.2 || rs.2)

/-- `dataService.ts` line 350: `setDepotInventory`.  One `INV` transaction
reference is generated up front and shared by every ledger row of the
call; the batch error, if any, is returned with no compensation. -/
def setDepotInventory (db : DB) (depotName : String)
    (inventory : List (Product × Int)) (adminUser : User) (now : Nat)
    (errOf : Nat → SetItemErrs) (newIdOf : Nat → String) (createdAt : String) :
    DB × Option String :=
  let transaction_ref := generateTransactionRef "INV" now
  let r := setDepotItems db depotName adminUser transaction_ref inventory errOf newIdOf
    createdAt 0
  if r.2 then (r.1, some "Error during batch inventory update")
  else (r.1, none)

/-- The observable side effects of one `handleSubmitInventory` run in the
depot inventory component. -/
structure SubmitOutcome where
  csvExported : Bool
  persisted : Bool
  chatSent : Bool
  notifiedSuccess : Bool
  notifiedError : Bool
  stagingCleared : Bool
deriving Repr, DecidableEq

/-- Depot inventory component, `handleSubmitInventory`: rejects an empty
staging list with an error toast; otherwise generates and downloads the
CSV *before* the store write, persists the submission as `pending`, and
only when that write succeeded sends the support-chat notification,
shows the success toast and clears the staging list.  On a failed write
it shows an error toast noting that the CSV was still downloaded. -/
def handleSubmitInventory (db : DB) (depotId depotName : String)
    (stagedItems : List InventoryItem) (newSubId createdAt : String)
    (submitErr : Option String) : DB × SubmitOutcome :=
  if stagedItems.isEmpty then
    (db, { csvExported := false, persisted := false, chatSent := false,
           notifiedSuccess := false, notifiedError := true, stagingCleared := false })
  else
    match submitErr with
    | some _ =>
      (db, { csvExported := true, persisted := false, chatSent := false,
             notifiedSuccess := false, notifiedError := true, stagingCleared := false })
    | none =>
      let submission : InventorySubmission :=
        { id := newSubId
          depotId := depotId
          depotName := depotName
          items := stagedItems
          status := SubmissionStatus.pending
          created_at := createdAt }
      ({ db with submissions := submission :: db.submissions },
       { csvExported := true, persisted := true, chatSent := true,
         notifiedSuccess := true, notifiedError := false, stagingCleared := true })

/-! ## Invariants and sample data -/

/-- The per-row arithmetic invariant of the `stock_movements` table. -/
def ledgerOk (db : DB) : Prop :=
  ∀ m ∈ db.movements, m.new_stock_level = m.old_stock_level + m.quantity_change

/-- Every product row carries a non-negative stock. -/
def stocksNonneg (db : DB) : Prop :=
  ∀ p ∈ db.products, 0 ≤ p.stock

/-- Every movement row of `db'` that is not already a row of `db` carries
the transaction reference `r`. -/
def newRowsShareRef (db db' : DB) (r : String) : Prop :=
  ∀ m ∈ db'.movements, m ∈ db.movements ∨ m.transaction_ref = r

/-- The status of the submission row with id `sid`. -/
def submissionStatus (db : DB) (sid : String) : Option SubmissionStatus :=
  (db.submissions.find? (fun s => s.id == sid)).map (fun s => s.status)

/-- A sample admin user for concrete runs. -/
def sampleUser : User :=
  { id := "u1", firstName := "Alice", lastName := "Martin", email := "a@x",
    service := "Labo A", phone := "000", role := Role.admin }

/-- A sample product stored at depot "Labo A" with stock 7. -/
def sampleProduct : Product :=
  { id := "p1", name := "Acetone", code := "ACE", cas := "67-64-1",
    formula := "C3H6O", location := "Labo A", stock := 7, unit := "L",
    alertThreshold := 5, imageUrl := none, safetySheetUrl := none,
    ghsPictograms := [], created_at := "c0", updated_at := "c0",
    expiryDate := "2026-01-01" }

/-- A sample submission item reporting an absolute count of 15. -/
def sampleItem : InventoryItem :=
  { productId := "p1", name := "Acetone", quantity := 15 }

/-- A sample pending submission holding `sampleItem`. -/
def sampleSubmission : InventorySubmission :=
  { id := "s1", depotId := "1", depotName := "Labo A", items := [sampleItem],
    status := SubmissionStatus.pending, created_at := "c1" }

/-- A store holding just `sampleProduct`. -/
def sampleDB : DB := { products := [sampleProduct], movements := [], submissions := [] }

/-- A store holding `sampleProduct` and the pending `sampleSubmission`. -/
def sampleDBSub : DB :=
  { products := [sampleProduct], movements := [], submissions := [sampleSubmission] }

/-- All remote calls of one approval item succeed. -/
def noItemErrs : ItemErrs := { fetchErr := none, updateErr := none, ledgerErr := none }

/-- All remote calls of one bulk-inventory pair succeed. -/
def noSetErrs : SetItemErrs := { findErr := none, writeErr := none, ledgerErr := none }

/-- `String.toUpper` on a literal, via the Batteries `map` lemma (the
recursor of `String.mapAux` does not reduce definitionally). -/
theorem toUpper_literal (s t : String) (h : String.mk (s.data.map Char.toUpper) = t) :
    s.toUpper = t :=
  (String.map_eq Char.toUpper s).trans h

/-- `++` on `String` is associative. -/
theorem str_append_assoc (a b c : String) : (a ++ b) ++ c = a ++ (b ++ c) := by
  apply String.ext
  simp [String.data_append]

/-- A generated reference with an already-uppercase literal as its
prefix is that literal, a dash, then the epoch milliseconds. -/
theorem generateTransactionRef_literal (p q : String) (now : Nat)
    (hup : p.toUpper = p) (hq : p ++ "-" = q) :
    generateTransactionRef p now = q ++ toString now := by
  unfold generateTransactionRef
  rw [hup, ← hq, str_append_assoc]

/-! ## C5 -/

/-- C5: if the initial status update to `approved` fails,
`approveSubmission` returns that error immediately and leaves the store
untouched — no product stock write and no ledger row for any item, and
the submission row keeps its stored (pending) status. -/
theorem approveSubmission_aborts_on_status_error
    (db : DB) (submission : InventorySubmission) (adminUser : User) (now : Nat)
    (e : String) (revertErr : Option String) (errOf : Nat → ItemErrs) :
    approveSubmission db submission adminUser now (some e) revertErr errOf = (db, some e) :=
  rfl

/-! ## C10 -/

/-- C10: in `depotRecordConsumption` and `adminCreateMovement`, when the
stock write succeeds but the ledger insert fails, the functions still
return success (`error = null`): the store ends up exactly as after the
bare stock write — whose `movements` table is unchanged, so the stock
change persists with no audit row and the caller observes no failure. -/
theorem ledger_failure_silently_ignored :
    (∀ (db : DB) (product : Product) (quantity : Int) (user : User) (now : Nat) (e : String),
      ¬ product.stock - quantity < 0 →
      depotRecordConsumption db product quantity user now none (some e) =
        (setStock db product.id (product.stock - quantity), none)) ∧
    (∀ (db : DB) (productId : String) (quantity : Int) (mt : AdminMovementType)
      (adminUser : User) (now : Nat) (e : String) (p : Product),
      findProduct db productId = some p →
      ¬ p.stock + adminQuantityChange mt quantity < 0 →
      adminCreateMovement db productId quantity mt adminUser now none none (some e) =
        (setStock db productId (p.stock + adminQuantityChange mt quantity), none)) ∧
    (∀ (db : DB) (pid : String) (s : Int), (setStock db pid s).movements = db.movements) := by
  refine ⟨?_, ?_, ?_⟩
  · intro db product quantity user now e h
    simp [depotRecordConsumption, addStockMovement, h]
  · intro db productId quantity mt adminUser now e p hfind h
    simp [adminCreateMovement, addStockMovement, hfind, h]
  · intro db pid s
    rfl

/-- C10 witness: consuming 3 of 7 with a failing ledger insert reports
success and updates the stock, and the same holds for an admin exit. -/
theorem ledger_failure_silently_ignored_witness :
    depotRecordConsumption sampleDB sampleProduct 3 sampleUser 1000 none (some "down") =
      (setStock sampleDB "p1" 4, none) ∧
    adminCreateMovement sampleDB "p1" 2 AdminMovementType.admin_exit sampleUser 1000
      none none (some "down") = (setStock sampleDB "p1" 5, none) := by
  constructor
  · exact ledger_failure_silently_ignored.1 sampleDB sampleProduct 3 sampleUser 1000 "down"
      (by decide)
  · exact ledger_failure_silently_ignored.2.1 sampleDB "p1" 2 AdminMovementType.admin_exit
      sampleUser 1000 "down" sampleProduct (by decide) (by decide)

/-! ## C9 -/

/-- C9 (counterexample): with a non-empty staging list and a failing
submission persist, the CSV export fires but the support-chat
notification does not — refuting the claim that both side effects fire
independently of whether persisting succeeds. -/
theorem submit_chat_skipped_on_persist_failure :
    (handleSubmitInventory sampleDBSub "1" "Labo A" [sampleItem] "s2" "c2"
        (some "boom")).2.csvExported = true ∧
    (handleSubmitInventory sampleDBSub "1" "Labo A" [sampleItem] "s2" "c2"
        (some "boom")).2.chatSent = false :=
  ⟨rfl, rfl⟩

/-- C9 (amended): on every non-empty inventory submission the CSV export
fires unconditionally (it is generated before the store write), while the
support-chat notification fires exactly when the persist succeeds; a
persist failure leaves the store untouched (so nothing is rolled back),
and a successful persist stores the submission as `pending`. -/
theorem submit_sideeffects
    (db : DB) (depotId depotName : String) (items : List InventoryItem)
    (newSubId createdAt : String) (submitErr : Option String)
    (hne : items ≠ []) :
    (handleSubmitInventory db depotId depotName items newSubId createdAt
        submitErr).2.csvExported = true ∧
    ((handleSubmitInventory db depotId depotName items newSubId createdAt
        submitErr).2.chatSent = true ↔ submitErr = none) ∧
    (∀ e, submitErr = some e →
      handleSubmitInventory db depotId depotName items newSubId createdAt submitErr =
        (db, { csvExported := true, persisted := false, chatSent := false,
               notifiedSuccess := false, notifiedError := true, stagingCleared := false })) ∧
    (submitErr = none →
      handleSubmitInventory db depotId depotName items newSubId createdAt submitErr =
        ({ db with submissions :=
            { id := newSubId, depotId := depotId, depotName := depotName,
              items := items, status := SubmissionStatus.pending,
              created_at := createdAt } :: db.submissions },
         { csvExported := true, persisted := true, chatSent := true,
           notifiedSuccess := true, notifiedError := false, stagingCleared := true })) := by
  cases items with
  | nil => exact absurd rfl hne
  | cons a l =>
    cases submitErr <;> simp [handleSubmitInventory]

/-- C9 (amended) witness: a successful one-item submission exports the
CSV, sends the chat notification and persists a pending record. -/
theorem submit_sideeffects_witness :
    (handleSubmitInventory sampleDB "1" "Labo A" [sampleItem] "s2" "c2"
        none).2.csvExported = true ∧
    ((handleSubmitInventory sampleDB "1" "Labo A" [sampleItem] "s2" "c2"
        none).2.chatSent = true ↔ (none : Option String) = none) := by
  have h := submit_sideeffects sampleDB "1" "Labo A" [sampleItem] "s2" "c2" none
    (by decide)
  exact ⟨h.1, h.2.1⟩

/-! ## C6 -/

/-- C6: a product edit appends a ledger row iff the submitted stock
differs from the stored stock; an unchanged edit writes the row update
only, a changed edit appends exactly one `update`-type row whose delta is
`new − old` and whose reference is `MAJ-<now>`. -/
theorem updateProduct_ledger_row_iff
    (db : DB) (product : Product) (user : User) (now : Nat) (nowIso : String)
    (orig : Product) (hfind : findProduct db product.id = some orig) :
    (updateProduct db product user now nowIso none none none).2 = none ∧
    (product.stock = orig.stock →
      (updateProduct db product user now nowIso none none none).1.movements =
        db.movements) ∧
    (product.stock ≠ orig.stock →
      (updateProduct db product user now nowIso none none none).1.movements =
        { product_id := product.id
          product_name := product.name
          user_id := user.id
          user_name := user.firstName ++ " " ++ user.lastName
          change_type := ChangeType.update
          quantity_change := product.stock - orig.stock
          old_stock_level := orig.stock
          new_stock_level := product.stock
          transaction_ref := generateTransactionRef "MAJ" now } :: db.movements) ∧
    generateTransactionRef "MAJ" now = "MAJ-" ++ toString now := by
  refine ⟨?_, ?_, ?_, ?_⟩
  · simp only [updateProduct, hfind]
    split <;> rfl
  · intro h
    simp [updateProduct, hfind, sub_eq_zero_of_eq h, applyProductUpdate]
  · intro h
    have hq : product.stock - orig.stock ≠ 0 := sub_ne_zero_of_ne h
    simp [updateProduct, hfind, hq, addStockMovement, applyProductUpdate]
  · exact generateTransactionRef_literal "MAJ" "MAJ-" now
      (toUpper_literal _ _ (by decide)) (by decide)

/-- C6 witness: editing `sampleProduct` from stock 7 to 12 succeeds and
appends exactly one `MAJ` update row with delta `+5`. -/
theorem updateProduct_ledger_row_iff_witness :
    (updateProduct sampleDB { sampleProduct with stock := 12 } sampleUser 999 "iso"
        none none none).2 = none ∧
    (updateProduct sampleDB { sampleProduct with stock := 12 } sampleUser 999 "iso"
        none none none).1.movements =
      [{ product_id := "p1", product_name := "Acetone", user_id := "u1",
         user_name := "Alice Martin", change_type := ChangeType.update,
         quantity_change := 5, old_stock_level := 7, new_stock_level := 12,
         transaction_ref := generateTransactionRef "MAJ" 999 }] := by
  have h := updateProduct_ledger_row_iff sampleDB { sampleProduct with stock := 12 }
    sampleUser 999 "iso" sampleProduct (by decide)
  refine ⟨h.1, ?_⟩
  have h2 := h.2.2.1 (by decide)
  simpa [sampleDB, sampleProduct, sampleUser] using h2

/-! ## Store lemmas -/

/-- Updating the stock of the row found under `pid` and looking it up
again returns that row with the new stock. -/
theorem find?_map_setStock (l : List Product) (pid : String) (s : Int) (p : Product)
    (h : l.find? (fun q => q.id == pid) = some p) :
    (l.map (fun q => if q.id == pid then { q with stock := s } else q)).find?
      (fun q => q.id == pid) = some { p with stock := s } := by
  induction l with
  | nil => simp at h
  | cons a l ih =>
    by_cases ha : (a.id == pid) = true
    · simp only [List.find?, ha] at h
      rw [Option.some.injEq] at h
      subst h
      simp [List.find?, ha]
    · have ha' : (a.id == pid) = false := by simpa using ha
      simp only [List.find?, ha'] at h
      simpa [List.find?, ha'] using ih h

/-- `findProduct` after `setStock` on the same id. -/
theorem findProduct_setStock (db : DB) (pid : String) (s : Int) (p : Product)
    (h : findProduct db pid = some p) :
    findProduct (setStock db pid s) pid = some { p with stock := s } :=
  find?_map_setStock db.products pid s p h

/-- `setSubmissionStatus` leaves the products table unchanged. -/
theorem findProduct_setSubmissionStatus (db : DB) (sid : String)
    (st : SubmissionStatus) (pid : String) :
    findProduct (setSubmissionStatus db sid st) pid = findProduct db pid :=
  rfl

/-! ## C3 -/

/-- The per-item approval pipeline with all remote calls succeeding:
the product's stock is replaced by the item's absolute quantity and one
`submission` ledger row is appended. -/
theorem approveItem_clean (db : DB) (adminUser : User) (ref : String)
    (item : InventoryItem) (p : Product)
    (h : findProduct db item.productId = some p) :
    approveItem db adminUser ref item noItemErrs =
      ({ setStock db item.productId item.quantity with
          movements :=
            { product_id := item.productId
              product_name := item.name
              user_id := adminUser.id
              user_name := adminUser.firstName ++ " " ++ adminUser.lastName ++ " (Approbation)"
              change_type := ChangeType.submission
              quantity_change := item.quantity - p.stock
              old_stock_level := p.stock
              new_stock_level := item.quantity
              transaction_ref := ref } :: db.movements }, none) := by
  simp only [approveItem, noItemErrs, h, addStockMovement]
  rfl

/-- C3: `approveSubmission` treats a submitted quantity as an absolute
count: with every remote call succeeding, the item's product stock is
written to exactly `item.quantity`, and the single appended ledger row
records the pre-write stock as `old_stock_level`, `item.quantity` as
`new_stock_level`, their difference as `quantity_change`, and
`change_type = submission`. -/
theorem approveSubmission_absolute_counts
    (db : DB) (sub : InventorySubmission) (adminUser : User) (now : Nat)
    (item : InventoryItem) (p : Product)
    (hitems : sub.items = [item])
    (hfind : findProduct db item.productId = some p) :
    (approveSubmission db sub adminUser now none none (fun _ => noItemErrs)).2 = none ∧
    findProduct (approveSubmission db sub adminUser now none none
        (fun _ => noItemErrs)).1 item.productId = some { p with stock := item.quantity } ∧
    (approveSubmission db sub adminUser now none none (fun _ => noItemErrs)).1.movements =
      { product_id := item.productId
        product_name := item.name
        user_id := adminUser.id
        user_name := adminUser.firstName ++ " " ++ adminUser.lastName ++ " (Approbation)"
        change_type := ChangeType.submission
        quantity_change := item.quantity - p.stock
        old_stock_level := p.stock
        new_stock_level := item.quantity
        transaction_ref := generateTransactionRef "INV" now } :: db.movements := by
  have hfind0 : findProduct (setSubmissionStatus db sub.id SubmissionStatus.approved)
      item.productId = some p := hfind
  have hitem := approveItem_clean (setSubmissionStatus db sub.id SubmissionStatus.approved)
    adminUser (generateTransactionRef "INV" now) item p hfind0
  have hrun : approveSubmission db sub adminUser now none none (fun _ => noItemErrs) =
      ((approveItem (setSubmissionStatus db sub.id SubmissionStatus.approved) adminUser
        (generateTransactionRef "INV" now) item noItemErrs).1, none) := by
    simp [approveSubmission, approveItems, hitems, hitem]
  rw [hrun, hitem]
  refine ⟨rfl, ?_, rfl⟩
  exact findProduct_setStock (setSubmissionStatus db sub.id SubmissionStatus.approved)
    item.productId item.quantity p hfind0

/-- C3 witness: the spec scenario — stock 7, submitted 15 — yields stock
15 and ledger row `old 7, new 15, change +8`. -/
theorem approveSubmission_absolute_counts_witness :
    (approveSubmission sampleDBSub sampleSubmission sampleUser 999 none none
        (fun _ => noItemErrs)).2 = none ∧
    findProduct (approveSubmission sampleDBSub sampleSubmission sampleUser 999 none none
        (fun _ => noItemErrs)).1 "p1" = some { sampleProduct with stock := 15 } ∧
    (approveSubmission sampleDBSub sampleSubmission sampleUser 999 none none
        (fun _ => noItemErrs)).1.movements =
      { product_id := "p1", product_name := "Acetone", user_id := "u1",
        user_name := "Alice Martin (Approbation)",
        change_type := ChangeType.submission, quantity_change := 8,
        old_stock_level := 7, new_stock_level := 15,
        transaction_ref := generateTransactionRef "INV" 999 } :: sampleDBSub.movements := by
  have h := approveSubmission_absolute_counts sampleDBSub sampleSubmission sampleUser 999
    sampleItem sampleProduct (by decide) (by decide)
  refine ⟨h.1, ?_, ?_⟩
  · simpa [sampleItem, sampleProduct] using h.2.1
  · simpa [sampleItem, sampleProduct, sampleUser] using h.2.2

/-! ## C4 -/

/-- The per-item approval pipeline never touches the submissions table. -/
theorem approveItem_submissions (db : DB) (adminUser : User) (ref : String)
    (item : InventoryItem) (e : ItemErrs) :
    (approveItem db adminUser ref item e).1.submissions = db.submissions := by
  obtain ⟨fe, ue, le⟩ := e
  unfold approveItem
  cases fe with
  | some err => rfl
  | none =>
    cases hf : findProduct db item.productId with
    | none => rfl
    | some p =>
      cases ue with
      | some err => rfl
      | none =>
        cases le with
        | some err => rfl
        | none => rfl

/-- The approval batch never touches the submissions table. -/
theorem approveItems_submissions (adminUser : User) (ref : String)
    (items : List InventoryItem) :
    ∀ (db : DB) (errOf : Nat → ItemErrs) (i : Nat),
      (approveItems db adminUser ref items errOf i).1.submissions = db.submissions := by
  induction items with
  | nil => intro db errOf i; rfl
  | cons item rest ih =>
    intro db errOf i
    show (approveItems (approveItem db adminUser ref item (errOf i)).1 adminUser ref rest
        errOf (i + 1)).1.submissions = db.submissions
    rw [ih, approveItem_submissions]

/-- Setting the status of the row found under `sid` and looking it up
again returns that row with the new status. -/
theorem find?_map_setStatus (l : List InventorySubmission) (sid : String)
    (st : SubmissionStatus) (a : InventorySubmission)
    (h : l.find? (fun s => s.id == sid) = some a) :
    (l.map (fun s => if s.id == sid then { s with status := st } else s)).find?
      (fun s => s.id == sid) = some { a with status := st } := by
  induction l with
  | nil => simp at h
  | cons b l ih =>
    by_cases hb : (b.id == sid) = true
    · simp only [List.find?, hb] at h
      rw [Option.some.injEq] at h
      subst h
      simp [List.find?, hb]
    · have hb' : (b.id == sid) = false := by simpa using hb
      simp only [List.find?, hb'] at h
      simpa [List.find?, hb'] using ih h

/-- C4: once the status is `approved`, a failing per-item operation makes
`approveSubmission` keep every write the item batch performed (no per-item
rollback of products or ledger rows), run exactly one compensating
action — setting the submission's status back to `pending` — and return a
single aggregated error. -/
theorem approveSubmission_failure_reverts_status_only
    (db : DB) (sub : InventorySubmission) (adminUser : User) (now : Nat)
    (errOf : Nat → ItemErrs)
    (hthrew : (approveItems (setSubmissionStatus db sub.id SubmissionStatus.approved)
        adminUser (generateTransactionRef "INV" now) sub.items errOf 0).2 = true) :
    approveSubmission db sub adminUser now none none errOf =
      (setSubmissionStatus
        (approveItems (setSubmissionStatus db sub.id SubmissionStatus.approved)
          adminUser (generateTransactionRef "INV" now) sub.items errOf 0).1
        sub.id SubmissionStatus.pending,
       some "Une erreur est survenue lors de la mise à jour des stocks. La soumission a été remise en attente.") ∧
    (approveSubmission db sub adminUser now none none errOf).1.products =
      (approveItems (setSubmissionStatus db sub.id SubmissionStatus.approved)
        adminUser (generateTransactionRef "INV" now) sub.items errOf 0).1.products ∧
    (approveSubmission db sub adminUser now none none errOf).1.movements =
      (approveItems (setSubmissionStatus db sub.id SubmissionStatus.approved)
        adminUser (generateTransactionRef "INV" now) sub.items errOf 0).1.movements ∧
    ((db.submissions.find? (fun s => s.id == sub.id)).isSome →
      submissionStatus (approveSubmission db sub adminUser now none none errOf).1 sub.id =
        some SubmissionStatus.pending) := by
  have hmain : approveSubmission db sub adminUser now none none errOf =
      (setSubmissionStatus
        (approveItems (setSubmissionStatus db sub.id SubmissionStatus.approved)
          adminUser (generateTransactionRef "INV" now) sub.items errOf 0).1
        sub.id SubmissionStatus.pending,
       some "Une erreur est survenue lors de la mise à jour des stocks. La soumission a été remise en attente.") := by
    simp [approveSubmission, hthrew]
  refine ⟨hmain, by rw [hmain]; rfl, by rw [hmain]; rfl, ?_⟩
  intro h
  obtain ⟨s0, hs0⟩ := Option.isSome_iff_exists.1 h
  rw [hmain]
  show (((setSubmissionStatus
      (approveItems (setSubmissionStatus db sub.id SubmissionStatus.approved)
        adminUser (generateTransactionRef "INV" now) sub.items errOf 0).1
      sub.id SubmissionStatus.pending).submissions.find?
        (fun s => s.id == sub.id)).map (fun s => s.status)) = some SubmissionStatus.pending
  have hsubs : (setSubmissionStatus
      (approveItems (setSubmissionStatus db sub.id SubmissionStatus.approved)
        adminUser (generateTransactionRef "INV" now) sub.items errOf 0).1
      sub.id SubmissionStatus.pending).submissions =
      (db.submissions.map
        (fun s => if s.id == sub.id then { s with status := SubmissionStatus.approved } else s)).map
        (fun s => if s.id == sub.id then { s with status := SubmissionStatus.pending } else s) := by
    show ((approveItems (setSubmissionStatus db sub.id SubmissionStatus.approved)
        adminUser (generateTransactionRef "INV" now) sub.items errOf 0).1.submissions.map
        (fun s => if s.id == sub.id then { s with status := SubmissionStatus.pending } else s)) = _
    rw [approveItems_submissions adminUser (generateTransactionRef "INV" now) sub.items _ errOf 0]
    rfl
  rw [hsubs]
  rw [find?_map_setStatus _ _ _ _ (find?_map_setStatus _ _ _ _ hs0)]
  rfl

/-- C4 witness: a one-item batch whose stock write fails leaves the store
as the batch left it with the status reverted to `pending`, and reports
one error. -/
theorem approveSubmission_failure_reverts_status_only_witness :
    approveSubmission sampleDBSub sampleSubmission sampleUser 999 none none
        (fun _ => { fetchErr := none, updateErr := some "write failed", ledgerErr := none }) =
      (setSubmissionStatus
        (approveItems (setSubmissionStatus sampleDBSub "s1" SubmissionStatus.approved)
          sampleUser (generateTransactionRef "INV" 999) [sampleItem]
          (fun _ => { fetchErr := none, updateErr := some "write failed", ledgerErr := none }) 0).1
        "s1" SubmissionStatus.pending,
       some "Une erreur est survenue lors de la mise à jour des stocks. La soumission a été remise en attente.") ∧
    submissionStatus (approveSubmission sampleDBSub sampleSubmission sampleUser 999 none none
        (fun _ => { fetchErr := none, updateErr := some "write failed", ledgerErr := none })).1
      "s1" = some SubmissionStatus.pending := by
  have h := approveSubmission_failure_reverts_status_only sampleDBSub sampleSubmission
    sampleUser 999
    (fun _ => { fetchErr := none, updateErr := some "write failed", ledgerErr := none })
    (by decide)
  exact ⟨h.1, h.2.2.2 (by decide)⟩

/-! ## C2 -/

/-- `ledgerOk` only depends on the movements table. -/
theorem ledgerOk_of_movements_eq {db db' : DB} (h : db'.movements = db.movements)
    (hok : ledgerOk db) : ledgerOk db' := by
  intro m hm
  rw [h] at hm
  exact hok m hm

/-- Appending a row that satisfies the arithmetic invariant preserves it. -/
theorem ledgerOk_addStockMovement {db : DB} (row : MovementRow) (e : Option String)
    (hrow : row.new_stock_level = row.old_stock_level + row.quantity_change)
    (hok : ledgerOk db) : ledgerOk (addStockMovement db row e).1 := by
  cases e with
  | some err => exact hok
  | none =>
    intro m hm
    rcases List.mem_cons.1 hm with rfl | hm
    · exact hrow
    · exact hok m hm

/-- One approval item preserves the ledger invariant. -/
theorem approveItem_ledgerOk (db : DB) (adminUser : User) (ref : String)
    (item : InventoryItem) (e : ItemErrs) (hok : ledgerOk db) :
    ledgerOk (approveItem db adminUser ref item e).1 := by
  obtain ⟨fe, ue, le⟩ := e
  cases fe with
  | some err => exact hok
  | none =>
    cases hf : findProduct db item.productId with
    | none => simpa [approveItem, hf] using hok
    | some p =>
      cases ue with
      | some err => simpa [approveItem, hf] using hok
      | none =>
        have h1 : ledgerOk (setStock db item.productId item.quantity) :=
          ledgerOk_of_movements_eq rfl hok
        have h2 := ledgerOk_addStockMovement
          { product_id := item.productId
            product_name := item.name
            user_id := adminUser.id
            user_name := adminUser.firstName ++ " " ++ adminUser.lastName ++ " (Approbation)"
            change_type := ChangeType.submission
            quantity_change := item.quantity - p.stock
            old_stock_level := p.stock
            new_stock_level := item.quantity
            transaction_ref := ref } le (by ring) h1
        simpa [approveItem, hf] using h2

/-- The approval batch preserves the ledger invariant. -/
theorem approveItems_ledgerOk (adminUser : User) (ref : String)
    (items : List InventoryItem) :
    ∀ (db : DB) (errOf : Nat → ItemErrs) (i : Nat), ledgerOk db →
      ledgerOk (approveItems db adminUser ref items errOf i).1 := by
  induction items with
  | nil => intro db errOf i hok; exact hok
  | cons item rest ih =>
    intro db errOf i hok
    exact ih _ errOf (i + 1) (approveItem_ledgerOk db adminUser ref item (errOf i) hok)

/-- One bulk-inventory pair preserves the ledger invariant. -/
theorem setDepotItem_ledgerOk (db : DB) (depotName : String) (adminUser : User)
    (ref : String) (product : Product) (newStock : Int) (newId createdAt : String)
    (e : SetItemErrs) (hok : ledgerOk db) :
    ledgerOk (setDepotItem db depotName adminUser ref product newStock newId createdAt e).1 := by
  obtain ⟨fe, we, le⟩ := e
  by_cases hfe : fe.isSome
  · simpa [setDepotItem, hfe] using hok
  · have hfe' : fe.isSome = false := by simpa using hfe
    cases hfind : findByCodeAndLocation db product.code depotName with
    | nil =>
      by_cases hpos : newStock > 0
      · cases we with
        | some err => simpa [setDepotItem, hfe', hfind, hpos] using hok
        | none =>
          have h1 : ledgerOk ({ db with products :=
              ({ product with
                 id := newId
                 location := depotName
                 stock := newStock
                 imageUrl := none
                 safetySheetUrl := none
                 created_at := createdAt
                 updated_at := createdAt } : Product) :: db.products } : DB) :=
            ledgerOk_of_movements_eq rfl hok
          have h2 := ledgerOk_addStockMovement
            { product_id := newId
              product_name := product.name
              user_id := adminUser.id
              user_name := adminUser.firstName ++ " " ++ adminUser.lastName
              change_type := ChangeType.initial
              quantity_change := newStock
              old_stock_level := 0
              new_stock_level := newStock
              transaction_ref := ref } le (by ring) h1
          simpa [setDepotItem, hfe', hfind, hpos] using h2
      · simpa [setDepotItem, hfe', hfind, hpos] using hok
    | cons existingProduct tail =>
      cases tail with
      | nil =>
        by_cases hne : existingProduct.stock ≠ newStock
        · have h1 : ledgerOk (match we with
              | some _ => db
              | none => setStock db existingProduct.id newStock) := by
            cases we with
            | some err => exact hok
            | none => exact ledgerOk_of_movements_eq rfl hok
          have h2 := ledgerOk_addStockMovement
            { product_id := existingProduct.id
              product_name := existingProduct.name
              user_id := adminUser.id
              user_name := adminUser.firstName ++ " " ++ adminUser.lastName
              change_type := ChangeType.inventory_count
              quantity_change := newStock - existingProduct.stock
              old_stock_level := existingProduct.stock
              new_stock_level := newStock
              transaction_ref := ref } le (by ring) h1
          simpa [setDepotItem, hfe', hfind, hne] using h2
        · simpa [setDepotItem, hfe', hfind, hne] using hok
      | cons b tail2 => simpa [setDepotItem, hfe', hfind] using hok

/-- The bulk-inventory batch preserves the ledger invariant. -/
theorem setDepotItems_ledgerOk (depotName : String) (adminUser : User) (ref : String)
    (inventory : List (Product × Int)) :
    ∀ (db : DB) (errOf : Nat → SetItemErrs) (newIdOf : Nat → String)
      (createdAt : String) (i : Nat), ledgerOk db →
      ledgerOk (setDepotItems db depotName adminUser ref inventory errOf newIdOf
        createdAt i).1 := by
  induction inventory with
  | nil => intro db errOf newIdOf createdAt i hok; exact hok
  | cons pair rest ih =>
    intro db errOf newIdOf createdAt i hok
    exact ih _ errOf newIdOf createdAt (i + 1)
      (setDepotItem_ledgerOk db depotName adminUser ref pair.1 pair.2 (newIdOf i)
        createdAt (errOf i) hok)

/-- C2: every ledger row written by any of the six stock mutators
(product create, product edit, depot consumption, admin movement,
submission approval, bulk inventory set) satisfies
`new_stock_level = old_stock_level + quantity_change`: each operation
preserves the table-wide invariant `ledgerOk`, whatever errors the
remote calls report. -/
theorem ledger_arithmetic_invariant :
    (∀ (db : DB) (product : Product) (user : User) (now : Nat)
      (newId createdAt : String) (ie le : Option String), ledgerOk db →
      ledgerOk (addProduct db product user now newId createdAt ie le).1) ∧
    (∀ (db : DB) (product : Product) (user : User) (now : Nat) (nowIso : String)
      (fe ue le : Option String), ledgerOk db →
      ledgerOk (updateProduct db product user now nowIso fe ue le).1) ∧
    (∀ (db : DB) (product : Product) (quantity : Int) (user : User) (now : Nat)
      (ue le : Option String), ledgerOk db →
      ledgerOk (depotRecordConsumption db product quantity user now ue le).1) ∧
    (∀ (db : DB) (productId : String) (quantity : Int) (mt : AdminMovementType)
      (adminUser : User) (now : Nat) (fe ue le : Option String), ledgerOk db →
      ledgerOk (adminCreateMovement db productId quantity mt adminUser now fe ue le).1) ∧
    (∀ (db : DB) (sub : InventorySubmission) (adminUser : User) (now : Nat)
      (se re : Option String) (errOf : Nat → ItemErrs), ledgerOk db →
      ledgerOk (approveSubmission db sub adminUser now se re errOf).1) ∧
    (∀ (db : DB) (depotName : String) (inventory : List (Product × Int))
      (adminUser : User) (now : Nat) (errOf : Nat → SetItemErrs)
      (newIdOf : Nat → String) (createdAt : String), ledgerOk db →
      ledgerOk (setDepotInventory db depotName inventory adminUser now errOf newIdOf
        createdAt).1) := by
  refine ⟨?_, ?_, ?_, ?_, ?_, ?_⟩
  · intro db product user now newId createdAt ie le hok
    cases ie with
    | some e => exact hok
    | none =>
      exact ledgerOk_addStockMovement _ le (by simp) (ledgerOk_of_movements_eq rfl hok)
  · intro db product user now nowIso fe ue le hok
    cases fe with
    | some e => exact hok
    | none =>
      cases hf : findProduct db product.id with
      | none => simpa [updateProduct, hf] using hok
      | some orig =>
        cases ue with
        | some e => simpa [updateProduct, hf] using hok
        | none =>
          by_cases hq : product.stock - orig.stock ≠ 0
          · have h1 : ledgerOk (applyProductUpdate db product nowIso) :=
              ledgerOk_of_movements_eq rfl hok
            have h2 := ledgerOk_addStockMovement
              { product_id := product.id
                product_name := product.name
                user_id := user.id
                user_name := user.firstName ++ " " ++ user.lastName
                change_type := ChangeType.update
                quantity_change := product.stock - orig.stock
                old_stock_level := orig.stock
                new_stock_level := product.stock
                transaction_ref := generateTransactionRef "MAJ" now } le (by ring) h1
            simpa [updateProduct, hf, hq] using h2
          · have h1 : ledgerOk (applyProductUpdate db product nowIso) :=
              ledgerOk_of_movements_eq rfl hok
            simpa [updateProduct, hf, hq] using h1
  · intro db product quantity user now ue le hok
    by_cases hlt : product.stock - quantity < 0
    · simpa [depotRecordConsumption, hlt] using hok
    · cases ue with
      | some e => simpa [depotRecordConsumption, hlt] using hok
      | none =>
        have h1 : ledgerOk (setStock db product.id (product.stock - quantity)) :=
          ledgerOk_of_movements_eq rfl hok
        have h2 := ledgerOk_addStockMovement
          { product_id := product.id
            product_name := product.name
            user_id := user.id
            user_name := user.firstName ++ " " ++ user.lastName
            change_type := ChangeType.consumption
            quantity_change := -quantity
            old_stock_level := product.stock
            new_stock_level := product.stock - quantity
            transaction_ref := generateTransactionRef "CON" now } le (by ring) h1
        simpa [depotRecordConsumption, hlt] using h2
  · intro db productId quantity mt adminUser now fe ue le hok
    by_cases hfe : fe.isSome
    · simpa [adminCreateMovement, hfe] using hok
    · have hfe' : fe.isSome = false := by simpa using hfe
      cases hf : findProduct db productId with
      | none => simpa [adminCreateMovement, hfe', hf] using hok
      | some p =>
        by_cases hlt : p.stock + adminQuantityChange mt quantity < 0
        · simpa [adminCreateMovement, hfe', hf, hlt] using hok
        · cases ue with
          | some e => simpa [adminCreateMovement, hfe', hf, hlt] using hok
          | none =>
            cases mt with
            | admin_entry =>
              have h1 : ledgerOk (setStock db productId
                  (p.stock + adminQuantityChange AdminMovementType.admin_entry quantity)) :=
                ledgerOk_of_movements_eq rfl hok
              have h2 := ledgerOk_addStockMovement
                { product_id := p.id
                  product_name := p.name
                  user_id := adminUser.id
                  user_name := adminUser.firstName ++ " " ++ adminUser.lastName
                  change_type := ChangeType.admin_entry
                  quantity_change := adminQuantityChange AdminMovementType.admin_entry quantity
                  old_stock_level := p.stock
                  new_stock_level :=
                    p.stock + adminQuantityChange AdminMovementType.admin_entry quantity
                  transaction_ref := generateTransactionRef "ENT" now } le rfl h1
              simpa [adminCreateMovement, hfe', hf, hlt] using h2
            | admin_exit =>
              have h1 : ledgerOk (setStock db productId
                  (p.stock + adminQuantityChange AdminMovementType.admin_exit quantity)) :=
                ledgerOk_of_movements_eq rfl hok
              have h2 := ledgerOk_addStockMovement
                { product_id := p.id
                  product_name := p.name
                  user_id := adminUser.id
                  user_name := adminUser.firstName ++ " " ++ adminUser.lastName
                  change_type := ChangeType.admin_exit
                  quantity_change := adminQuantityChange AdminMovementType.admin_exit quantity
                  old_stock_level := p.stock
                  new_stock_level :=
                    p.stock + adminQuantityChange AdminMovementType.admin_exit quantity
                  transaction_ref := generateTransactionRef "SOR" now } le rfl h1
              simpa [adminCreateMovement, hfe', hf, hlt] using h2
  · intro db sub adminUser now se re errOf hok
    cases se with
    | some e => exact hok
    | none =>
      have hbatch := approveItems_ledgerOk adminUser (generateTransactionRef "INV" now)
        sub.items (setSubmissionStatus db sub.id SubmissionStatus.approved) errOf 0
        (ledgerOk_of_movements_eq rfl hok)
      by_cases hthrew : (approveItems (setSubmissionStatus db sub.id SubmissionStatus.approved)
          adminUser (generateTransactionRef "INV" now) sub.items errOf 0).2 = true
      · cases re with
        | some e =>
          simpa [approveSubmission, hthrew] using hbatch
        | none =>
          have : ledgerOk (setSubmissionStatus
              (approveItems (setSubmissionStatus db sub.id SubmissionStatus.approved)
                adminUser (generateTransactionRef "INV" now) sub.items errOf 0).1
              sub.id SubmissionStatus.pending) :=
            ledgerOk_of_movements_eq rfl hbatch
          simpa [approveSubmission, hthrew] using this
      · have hthrew' : (approveItems (setSubmissionStatus db sub.id SubmissionStatus.approved)
            adminUser (generateTransactionRef "INV" now) sub.items errOf 0).2 = false := by
          simpa using hthrew
        simpa [approveSubmission, hthrew'] using hbatch
  · intro db depotName inventory adminUser now errOf newIdOf createdAt hok
    have hbatch := setDepotItems_ledgerOk depotName adminUser
      (generateTransactionRef "INV" now) inventory db errOf newIdOf createdAt 0 hok
    by_cases hthrew : (setDepotItems db depotName adminUser
        (generateTransactionRef "INV" now) inventory errOf newIdOf createdAt 0).2 = true
    · simpa [setDepotInventory, hthrew] using hbatch
    · have hthrew' : (setDepotItems db depotName adminUser
          (generateTransactionRef "INV" now) inventory errOf newIdOf createdAt 0).2 = false := by
        simpa using hthrew
      simpa [setDepotInventory, hthrew'] using hbatch

/-- C2 witness: the invariant holds after concrete runs of all six
mutators starting from an empty ledger. -/
theorem ledger_arithmetic_invariant_witness :
    ledgerOk (addProduct sampleDB sampleProduct sampleUser 5 "p9" "c9" none none).1 ∧
    ledgerOk (updateProduct sampleDB { sampleProduct with stock := 12 } sampleUser 5 "i"
      none none none).1 ∧
    ledgerOk (depotRecordConsumption sampleDB sampleProduct 3 sampleUser 5 none none).1 ∧
    ledgerOk (adminCreateMovement sampleDB "p1" 2 AdminMovementType.admin_entry sampleUser 5
      none none none).1 ∧
    ledgerOk (approveSubmission sampleDBSub sampleSubmission sampleUser 5 none none
      (fun _ => noItemErrs)).1 ∧
    ledgerOk (setDepotInventory sampleDB "Labo B" [(sampleProduct, 5)] sampleUser 5
      (fun _ => noSetErrs) (fun _ => "n0") "c9").1 := by
  have h1 : ledgerOk sampleDB := by intro m hm; simp [sampleDB] at hm
  have h2 : ledgerOk sampleDBSub := by intro m hm; simp [sampleDBSub] at hm
  exact ⟨ledger_arithmetic_invariant.1 sampleDB sampleProduct sampleUser 5 "p9" "c9"
      none none h1,
    ledger_arithmetic_invariant.2.1 sampleDB _ sampleUser 5 "i" none none none h1,
    ledger_arithmetic_invariant.2.2.1 sampleDB sampleProduct 3 sampleUser 5 none none h1,
    ledger_arithmetic_invariant.2.2.2.1 sampleDB "p1" 2 AdminMovementType.admin_entry
      sampleUser 5 none none none h1,
    ledger_arithmetic_invariant.2.2.2.2.1 sampleDBSub sampleSubmission sampleUser 5
      none none (fun _ => noItemErrs) h2,
    ledger_arithmetic_invariant.2.2.2.2.2 sampleDB "Labo B" [(sampleProduct, 5)] sampleUser 5
      (fun _ => noSetErrs) (fun _ => "n0") "c9" h1⟩

/-! ## C7 -/

/-- No new rows: every row is an old row. -/
theorem newRowsShareRef_self (db : DB) (r : String) : newRowsShareRef db db r :=
  fun _ hm => Or.inl hm

/-- `newRowsShareRef` only depends on the movements table of the result. -/
theorem newRows_of_movements_eq {db db1 db2 : DB} {r : String}
    (heq : db2.movements = db1.movements) (h : newRowsShareRef db db1 r) :
    newRowsShareRef db db2 r := by
  intro m hm
  rw [heq] at hm
  exact h m hm

/-- Chaining two write phases keeps the shared-reference property. -/
theorem newRows_trans {db db1 db2 : DB} {r : String}
    (h1 : newRowsShareRef db db1 r) (h2 : newRowsShareRef db1 db2 r) :
    newRowsShareRef db db2 r := by
  intro m hm
  rcases h2 m hm with hm1 | hr
  · exact h1 m hm1
  · exact Or.inr hr

/-- Appending a row carrying reference `r` keeps the property. -/
theorem newRows_addStockMovement {db db1 : DB} {r : String}
    (h : newRowsShareRef db db1 r) (row : MovementRow) (e : Option String)
    (hrow : row.transaction_ref = r) :
    newRowsShareRef db (addStockMovement db1 row e).1 r := by
  cases e with
  | some err => exact h
  | none =>
    intro m hm
    rcases List.mem_cons.1 hm with rfl | hm
    · exact Or.inr hrow
    · exact h m hm

/-- Every row written by one approval item carries the batch reference. -/
theorem approveItem_newRows (db : DB) (adminUser : User) (ref : String)
    (item : InventoryItem) (e : ItemErrs) :
    newRowsShareRef db (approveItem db adminUser ref item e).1 ref := by
  obtain ⟨fe, ue, le⟩ := e
  cases fe with
  | some err => exact newRowsShareRef_self db ref
  | none =>
    cases hf : findProduct db item.productId with
    | none =>
      have := newRowsShareRef_self db ref
      simpa [approveItem, hf] using this
    | some p =>
      cases ue with
      | some err =>
        have := newRowsShareRef_self db ref
        simpa [approveItem, hf] using this
      | none =>
        have h1 : newRowsShareRef db (setStock db item.productId item.quantity) ref :=
          newRows_of_movements_eq rfl (newRowsShareRef_self db ref)
        have h2 := newRows_addStockMovement h1
          { product_id := item.productId
            product_name := item.name
            user_id := adminUser.id
            user_name := adminUser.firstName ++ " " ++ adminUser.lastName ++ " (Approbation)"
            change_type := ChangeType.submission
            quantity_change := item.quantity - p.stock
            old_stock_level := p.stock
            new_stock_level := item.quantity
            transaction_ref := ref } le rfl
        simpa [approveItem, hf] using h2

/-- Every row written by the approval batch carries the batch reference. -/
theorem approveItems_newRows (adminUser : User) (ref : String)
    (items : List InventoryItem) :
    ∀ (db : DB) (errOf : Nat → ItemErrs) (i : Nat),
      newRowsShareRef db (approveItems db adminUser ref items errOf i).1 ref := by
  induction items with
  | nil => intro db errOf i; exact newRowsShareRef_self db ref
  | cons item rest ih =>
    intro db errOf i
    exact newRows_trans (approveItem_newRows db adminUser ref item (errOf i))
      (ih _ errOf (i + 1))

/-- Every row written for one bulk-inventory pair carries the call's
reference. -/
theorem setDepotItem_newRows (db : DB) (depotName : String) (adminUser : User)
    (ref : String) (product : Product) (newStock : Int) (newId createdAt : String)
    (e : SetItemErrs) :
    newRowsShareRef db
      (setDepotItem db depotName adminUser ref product newStock newId createdAt e).1 ref := by
  obtain ⟨fe, we, le⟩ := e
  by_cases hfe : fe.isSome
  · have := newRowsShareRef_self db ref
    simpa [setDepotItem, hfe] using this
  · have hfe' : fe.isSome = false := by simpa using hfe
    cases hfind : findByCodeAndLocation db product.code depotName with
    | nil =>
      by_cases hpos : newStock > 0
      · cases we with
        | some err =>
          have := newRowsShareRef_self db ref
          simpa [setDepotItem, hfe', hfind, hpos] using this
        | none =>
          have h1 : newRowsShareRef db ({ db with products :=
              ({ product with
                 id := newId
                 location := depotName
                 stock := newStock
                 imageUrl := none
                 safetySheetUrl := none
                 created_at := createdAt
                 updated_at := createdAt } : Product) :: db.products } : DB) ref :=
            newRows_of_movements_eq rfl (newRowsShareRef_self db ref)
          have h2 := newRows_addStockMovement h1
            { product_id := newId
              product_name := product.name
              user_id := adminUser.id
              user_name := adminUser.firstName ++ " " ++ adminUser.lastName
              change_type := ChangeType.initial
              quantity_change := newStock
              old_stock_level := 0
              new_stock_level := newStock
              transaction_ref := ref } le rfl
          simpa [setDepotItem, hfe', hfind, hpos] using h2
      · have := newRowsShareRef_self db ref
        simpa [setDepotItem, hfe', hfind, hpos] using this
    | cons existingProduct tail =>
      cases tail with
      | nil =>
        by_cases hne : existingProduct.stock ≠ newStock
        · have h1 : newRowsShareRef db (match we with
              | some _ => db
              | none => setStock db existingProduct.id newStock) ref := by
            cases we with
            | some err => exact newRowsShareRef_self db ref
            | none => exact newRows_of_movements_eq rfl (newRowsShareRef_self db ref)
          have h2 := newRows_addStockMovement h1
            { product_id := existingProduct.id
              product_name := existingProduct.name
              user_id := adminUser.id
              user_name := adminUser.firstName ++ " " ++ adminUser.lastName
              change_type := ChangeType.inventory_count
              quantity_change := newStock - existingProduct.stock
              old_stock_level := existingProduct.stock
              new_stock_level := newStock
              transaction_ref := ref } le rfl
          simpa [setDepotItem, hfe', hfind, hne] using h2
        · have := newRowsShareRef_self db ref
          simpa [setDepotItem, hfe', hfind, hne] using this
      | cons b tail2 =>
        have := newRowsShareRef_self db ref
        simpa [setDepotItem, hfe', hfind] using this

/-- Every row written by the bulk-inventory batch carries the call's
reference. -/
theorem setDepotItems_newRows (depotName : String) (adminUser : User) (ref : String)
    (inventory : List (Product × Int)) :
    ∀ (db : DB) (errOf : Nat → SetItemErrs) (newIdOf : Nat → String)
      (createdAt : String) (i : Nat),
      newRowsShareRef db (setDepotItems db depotName adminUser ref inventory errOf
        newIdOf createdAt i).1 ref := by
  induction inventory with
  | nil => intro db errOf newIdOf createdAt i; exact newRowsShareRef_self db ref
  | cons pair rest ih =>
    intro db errOf newIdOf createdAt i
    exact newRows_trans
      (setDepotItem_newRows db depotName adminUser ref pair.1 pair.2 (newIdOf i)
        createdAt (errOf i))
      (ih _ errOf newIdOf createdAt (i + 1))

/-- C7: every generated transaction reference is a 3-letter uppercase
prefix, a dash, and the epoch milliseconds — CRE for create, MAJ for
edit, CON for consumption, ENT/SOR for admin entry/exit, INV for
approval and bulk set (each prefix is its own uppercase form and has
length 3); and every ledger row newly written by an operation carries
that operation's reference — in particular all rows of one
`approveSubmission` call share the single `INV` reference generated
before the per-item batch. -/
theorem transaction_ref_format_and_sharing :
    (∀ now : Nat,
      (generateTransactionRef "CRE" now = "CRE-" ++ toString now ∧
        "CRE".length = 3 ∧ "CRE".toUpper = "CRE") ∧
      (generateTransactionRef "MAJ" now = "MAJ-" ++ toString now ∧
        "MAJ".length = 3 ∧ "MAJ".toUpper = "MAJ") ∧
      (generateTransactionRef "CON" now = "CON-" ++ toString now ∧
        "CON".length = 3 ∧ "CON".toUpper = "CON") ∧
      (generateTransactionRef "ENT" now = "ENT-" ++ toString now ∧
        "ENT".length = 3 ∧ "ENT".toUpper = "ENT") ∧
      (generateTransactionRef "SOR" now = "SOR-" ++ toString now ∧
        "SOR".length = 3 ∧ "SOR".toUpper = "SOR") ∧
      (generateTransactionRef "INV" now = "INV-" ++ toString now ∧
        "INV".length = 3 ∧ "INV".toUpper = "INV")) ∧
    (∀ (db : DB) (product : Product) (user : User) (now : Nat)
      (newId createdAt : String) (ie le : Option String),
      newRowsShareRef db (addProduct db product user now newId createdAt ie le).1
        (generateTransactionRef "CRE" now)) ∧
    (∀ (db : DB) (product : Product) (user : User) (now : Nat) (nowIso : String)
      (fe ue le : Option String),
      newRowsShareRef db (updateProduct db product user now nowIso fe ue le).1
        (generateTransactionRef "MAJ" now)) ∧
    (∀ (db : DB) (product : Product) (quantity : Int) (user : User) (now : Nat)
      (ue le : Option String),
      newRowsShareRef db (depotRecordConsumption db product quantity user now ue le).1
        (generateTransactionRef "CON" now)) ∧
    (∀ (db : DB) (productId : String) (quantity : Int) (adminUser : User) (now : Nat)
      (fe ue le : Option String),
      newRowsShareRef db (adminCreateMovement db productId quantity
        AdminMovementType.admin_entry adminUser now fe ue le).1
        (generateTransactionRef "ENT" now)) ∧
    (∀ (db : DB) (productId : String) (quantity : Int) (adminUser : User) (now : Nat)
      (fe ue le : Option String),
      newRowsShareRef db (adminCreateMovement db productId quantity
        AdminMovementType.admin_exit adminUser now fe ue le).1
        (generateTransactionRef "SOR" now)) ∧
    (∀ (db : DB) (sub : InventorySubmission) (adminUser : User) (now : Nat)
      (se re : Option String) (errOf : Nat → ItemErrs),
      newRowsShareRef db (approveSubmission db sub adminUser now se re errOf).1
        (generateTransactionRef "INV" now)) ∧
    (∀ (db : DB) (depotName : String) (inventory : List (Product × Int))
      (adminUser : User) (now : Nat) (errOf : Nat → SetItemErrs)
      (newIdOf : Nat → String) (createdAt : String),
      newRowsShareRef db (setDepotInventory db depotName inventory adminUser now errOf
        newIdOf createdAt).1 (generateTransactionRef "INV" now)) := by
  refine ⟨?_, ?_, ?_, ?_, ?_, ?_, ?_, ?_⟩
  · intro now
    refine ⟨⟨?_, by decide, ?_⟩, ⟨?_, by decide, ?_⟩, ⟨?_, by decide, ?_⟩,
      ⟨?_, by decide, ?_⟩, ⟨?_, by decide, ?_⟩, ⟨?_, by decide, ?_⟩⟩ <;>
      first
        | exact generateTransactionRef_literal _ _ now (toUpper_literal _ _ (by decide))
            (by decide)
        | exact toUpper_literal _ _ (by decide)
  · intro db product user now newId createdAt ie le
    cases ie with
    | some e => exact newRowsShareRef_self db _
    | none =>
      have h1 : newRowsShareRef db ({ db with products :=
          ({ product with
             id := newId
             created_at := createdAt
             updated_at := createdAt } : Product) :: db.products } : DB)
          (generateTransactionRef "CRE" now) :=
        newRows_of_movements_eq rfl (newRowsShareRef_self db _)
      exact newRows_addStockMovement h1
        { product_id := newId
          product_name := product.name
          user_id := user.id
          user_name := user.firstName ++ " " ++ user.lastName
          change_type := ChangeType.initial
          quantity_change := product.stock
          old_stock_level := 0
          new_stock_level := product.stock
          transaction_ref := generateTransactionRef "CRE" now } le rfl
  · intro db product user now nowIso fe ue le
    cases fe with
    | some e => exact newRowsShareRef_self db _
    | none =>
      cases hf : findProduct db product.id with
      | none =>
        have := newRowsShareRef_self db (generateTransactionRef "MAJ" now)
        simpa [updateProduct, hf] using this
      | some orig =>
        cases ue with
        | some e =>
          have := newRowsShareRef_self db (generateTransactionRef "MAJ" now)
          simpa [updateProduct, hf] using this
        | none =>
          by_cases hq : product.stock - orig.stock ≠ 0
          · have h1 : newRowsShareRef db (applyProductUpdate db product nowIso)
                (generateTransactionRef "MAJ" now) :=
              newRows_of_movements_eq rfl (newRowsShareRef_self db _)
            have h2 := newRows_addStockMovement h1
              { product_id := product.id
                product_name := product.name
                user_id := user.id
                user_name := user.firstName ++ " " ++ user.lastName
                change_type := ChangeType.update
                quantity_change := product.stock - orig.stock
                old_stock_level := orig.stock
                new_stock_level := product.stock
                transaction_ref := generateTransactionRef "MAJ" now } le rfl
            simpa [updateProduct, hf, hq] using h2
          · have h1 : newRowsShareRef db (applyProductUpdate db product nowIso)
                (generateTransactionRef "MAJ" now) :=
              newRows_of_movements_eq rfl (newRowsShareRef_self db _)
            simpa [updateProduct, hf, hq] using h1
  · intro db product quantity user now ue le
    by_cases hlt : product.stock - quantity < 0
    · have := newRowsShareRef_self db (generateTransactionRef "CON" now)
      simpa [depotRecordConsumption, hlt] using this
    · cases ue with
      | some e =>
        have := newRowsShareRef_self db (generateTransactionRef "CON" now)
        simpa [depotRecordConsumption, hlt] using this
      | none =>
        have h1 : newRowsShareRef db (setStock db product.id (product.stock - quantity))
            (generateTransactionRef "CON" now) :=
          newRows_of_movements_eq rfl (newRowsShareRef_self db _)
        have h2 := newRows_addStockMovement h1
          { product_id := product.id
            product_name := product.name
            user_id := user.id
            user_name := user.firstName ++ " " ++ user.lastName
            change_type := ChangeType.consumption
            quantity_change := -quantity
            old_stock_level := product.stock
            new_stock_level := product.stock - quantity
            transaction_ref := generateTransactionRef "CON" now } le rfl
        simpa [depotRecordConsumption, hlt] using h2
  · intro db productId quantity adminUser now fe ue le
    by_cases hfe : fe.isSome
    · have := newRowsShareRef_self db (generateTransactionRef "ENT" now)
      simpa [adminCreateMovement, hfe] using this
    · have hfe' : fe.isSome = false := by simpa using hfe
      cases hf : findProduct db productId with
      | none =>
        have := newRowsShareRef_self db (generateTransactionRef "ENT" now)
        simpa [adminCreateMovement, hfe', hf] using this
      | some p =>
        by_cases hlt : p.stock +
            adminQuantityChange AdminMovementType.admin_entry quantity < 0
        · have := newRowsShareRef_self db (generateTransactionRef "ENT" now)
          simpa [adminCreateMovement, hfe', hf, hlt] using this
        · cases ue with
          | some e =>
            have := newRowsShareRef_self db (generateTransactionRef "ENT" now)
            simpa [adminCreateMovement, hfe', hf, hlt] using this
          | none =>
            have h1 : newRowsShareRef db (setStock db productId
                (p.stock + adminQuantityChange AdminMovementType.admin_entry quantity))
                (generateTransactionRef "ENT" now) :=
              newRows_of_movements_eq rfl (newRowsShareRef_self db _)
            have h2 := newRows_addStockMovement h1
              { product_id := p.id
                product_name := p.name
                user_id := adminUser.id
                user_name := adminUser.firstName ++ " " ++ adminUser.lastName
                change_type := ChangeType.admin_entry
                quantity_change := adminQuantityChange AdminMovementType.admin_entry quantity
                old_stock_level := p.stock
                new_stock_level :=
                  p.stock + adminQuantityChange AdminMovementType.admin_entry quantity
                transaction_ref := generateTransactionRef "ENT" now } le rfl
            simpa [adminCreateMovement, hfe', hf, hlt] using h2
  · intro db productId quantity adminUser now fe ue le
    by_cases hfe : fe.isSome
    · have := newRowsShareRef_self db (generateTransactionRef "SOR" now)
      simpa [adminCreateMovement, hfe] using this
    · have hfe' : fe.isSome = false := by simpa using hfe
      cases hf : findProduct db productId with
      | none =>
        have := newRowsShareRef_self db (generateTransactionRef "SOR" now)
        simpa [adminCreateMovement, hfe', hf] using this
      | some p =>
        by_cases hlt : p.stock +
            adminQuantityChange AdminMovementType.admin_exit quantity < 0
        · have := newRowsShareRef_self db (generateTransactionRef "SOR" now)
          simpa [adminCreateMovement, hfe', hf, hlt] using this
        · cases ue with
          | some e =>
            have := newRowsShareRef_self db (generateTransactionRef "SOR" now)
            simpa [adminCreateMovement, hfe', hf, hlt] using this
          | none =>
            have h1 : newRowsShareRef db (setStock db productId
                (p.stock + adminQuantityChange AdminMovementType.admin_exit quantity))
                (generateTransactionRef "SOR" now) :=
              newRows_of_movements_eq rfl (newRowsShareRef_self db _)
            have h2 := newRows_addStockMovement h1
              { product_id := p.id
                product_name := p.name
                user_id := adminUser.id
                user_name := adminUser.firstName ++ " " ++ adminUser.lastName
                change_type := ChangeType.admin_exit
                quantity_change := adminQuantityChange AdminMovementType.admin_exit quantity
                old_stock_level := p.stock
                new_stock_level :=
                  p.stock + adminQuantityChange AdminMovementType.admin_exit quantity
                transaction_ref := generateTransactionRef "SOR" now } le rfl
            simpa [adminCreateMovement, hfe', hf, hlt] using h2
  · intro db sub adminUser now se re errOf
    cases se with
    | some e => exact newRowsShareRef_self db _
    | none =>
      have hbatch : newRowsShareRef db
          (approveItems (setSubmissionStatus db sub.id SubmissionStatus.approved)
            adminUser (generateTransactionRef "INV" now) sub.items errOf 0).1
          (generateTransactionRef "INV" now) :=
        newRows_trans (newRows_of_movements_eq rfl (newRowsShareRef_self db _))
          (approveItems_newRows adminUser (generateTransactionRef "INV" now) sub.items
            (setSubmissionStatus db sub.id SubmissionStatus.approved) errOf 0)
      by_cases hthrew : (approveItems (setSubmissionStatus db sub.id SubmissionStatus.approved)
          adminUser (generateTransactionRef "INV" now) sub.items errOf 0).2 = true
      · cases re with
        | some e => simpa [approveSubmission, hthrew] using hbatch
        | none =>
          have hrev : newRowsShareRef db (setSubmissionStatus
              (approveItems (setSubmissionStatus db sub.id SubmissionStatus.approved)
                adminUser (generateTransactionRef "INV" now) sub.items errOf 0).1
              sub.id SubmissionStatus.pending) (generateTransactionRef "INV" now) :=
            newRows_of_movements_eq rfl hbatch
          simpa [approveSubmission, hthrew] using hrev
      · have hthrew' : (approveItems (setSubmissionStatus db sub.id SubmissionStatus.approved)
            adminUser (generateTransactionRef "INV" now) sub.items errOf 0).2 = false := by
          simpa using hthrew
        simpa [approveSubmission, hthrew'] using hbatch
  · intro db depotName inventory adminUser now errOf newIdOf createdAt
    have hbatch := setDepotItems_newRows depotName adminUser
      (generateTransactionRef "INV" now) inventory db errOf newIdOf createdAt 0
    by_cases hthrew : (setDepotItems db depotName adminUser
        (generateTransactionRef "INV" now) inventory errOf newIdOf createdAt 0).2 = true
    · simpa [setDepotInventory, hthrew] using hbatch
    · have hthrew' : (setDepotItems db depotName adminUser
          (generateTransactionRef "INV" now) inventory errOf newIdOf createdAt 0).2 = false := by
        simpa using hthrew
      simpa [setDepotInventory, hthrew'] using hbatch

/-- C7 witness: a concrete two-item approval produces rows that all carry
the one `INV-999` reference. -/
theorem transaction_ref_format_and_sharing_witness :
    (generateTransactionRef "INV" 999 = "INV-" ++ toString 999 ∧
      "INV".length = 3 ∧ "INV".toUpper = "INV") ∧
    (∀ m ∈ (approveSubmission sampleDBSub sampleSubmission sampleUser 999 none none
        (fun _ => noItemErrs)).1.movements,
      m ∈ sampleDBSub.movements ∨ m.transaction_ref = generateTransactionRef "INV" 999) := by
  refine ⟨((transaction_ref_format_and_sharing.1 999).2.2.2.2.2), ?_⟩
  intro m hm
  exact transaction_ref_format_and_sharing.2.2.2.2.2.2.1 sampleDBSub sampleSubmission
    sampleUser 999 none none (fun _ => noItemErrs) m hm

/-! ## C8 -/

/-- C8: a bulk depot-inventory pair whose product code has no instance at
the target depot and whose `newStock` is positive creates one product row
located at that depot with the new stock, and appends exactly one
`initial`-type ledger row `old 0 → new newStock`; and every row written
by a `setDepotInventory` call carries the call's single `INV` reference. -/
theorem setDepotInventory_creates_missing_product :
    (∀ (db : DB) (depotName : String) (adminUser : User) (ref : String)
      (product : Product) (newStock : Int) (newId createdAt : String),
      findByCodeAndLocation db product.code depotName = [] →
      newStock > 0 →
      setDepotItem db depotName adminUser ref product newStock newId createdAt noSetErrs =
        ({ products :=
            ({ product with
               id := newId
               location := depotName
               stock := newStock
               imageUrl := none
               safetySheetUrl := none
               created_at := createdAt
               updated_at := createdAt } : Product) :: db.products
           movements :=
            { product_id := newId
              product_name := product.name
              user_id := adminUser.id
              user_name := adminUser.firstName ++ " " ++ adminUser.lastName
              change_type := ChangeType.initial
              quantity_change := newStock
              old_stock_level := 0
              new_stock_level := newStock
              transaction_ref := ref } :: db.movements
           submissions := db.submissions }, false)) ∧
    (∀ (db : DB) (depotName : String) (inventory : List (Product × Int))
      (adminUser : User) (now : Nat) (errOf : Nat → SetItemErrs)
      (newIdOf : Nat → String) (createdAt : String),
      newRowsShareRef db (setDepotInventory db depotName inventory adminUser now errOf
        newIdOf createdAt).1 (generateTransactionRef "INV" now)) := by
  constructor
  · intro db depotName adminUser ref product newStock newId createdAt hfind hpos
    simp only [setDepotItem, noSetErrs, hfind, hpos, addStockMovement]
    rfl
  · intro db depotName inventory adminUser now errOf newIdOf createdAt
    have hbatch := setDepotItems_newRows depotName adminUser
      (generateTransactionRef "INV" now) inventory db errOf newIdOf createdAt 0
    by_cases hthrew : (setDepotItems db depotName adminUser
        (generateTransactionRef "INV" now) inventory errOf newIdOf createdAt 0).2 = true
    · simpa [setDepotInventory, hthrew] using hbatch
    · have hthrew' : (setDepotItems db depotName adminUser
          (generateTransactionRef "INV" now) inventory errOf newIdOf createdAt 0).2 = false := by
        simpa using hthrew
      simpa [setDepotInventory, hthrew'] using hbatch

/-- C8 witness: setting stock 5 for a code absent from depot "Labo B"
creates the depot-scoped row and one `initial` ledger row `0 → 5`. -/
theorem setDepotInventory_creates_missing_product_witness :
    setDepotItem sampleDB "Labo B" sampleUser "INV-42" sampleProduct 5 "n0" "c9" noSetErrs =
      ({ products :=
          ({ sampleProduct with
             id := "n0"
             location := "Labo B"
             stock := 5
             imageUrl := none
             safetySheetUrl := none
             created_at := "c9"
             updated_at := "c9" } : Product) :: sampleDB.products
         movements :=
          { product_id := "n0"
            product_name := "Acetone"
            user_id := "u1"
            user_name := "Alice Martin"
            change_type := ChangeType.initial
            quantity_change := 5
            old_stock_level := 0
            new_stock_level := 5
            transaction_ref := "INV-42" } :: sampleDB.movements
         submissions := sampleDB.submissions }, false) := by
  have h := setDepotInventory_creates_missing_product.1 sampleDB "Labo B" sampleUser
    "INV-42" sampleProduct 5 "n0" "c9" (by decide) (by decide)
  simpa [sampleProduct, sampleUser] using h

/-! ## C1 -/

/-- C1 (counterexample): `updateProduct` performs no negativity check —
editing the stored product (stock 7) to stock −5 is accepted
(`error = null`), persists the negative stock, and even appends a ledger
row, refuting the claim that every accepted mutation keeps stock ≥ 0. -/
theorem negative_stock_accepted_on_edit :
    (updateProduct sampleDB { sampleProduct with stock := -5 } sampleUser 999 "iso"
        none none none).2 = none ∧
    (∃ p ∈ (updateProduct sampleDB { sampleProduct with stock := -5 } sampleUser 999 "iso"
        none none none).1.products, p.stock < 0) ∧
    (updateProduct sampleDB { sampleProduct with stock := -5 } sampleUser 999 "iso"
        none none none).1.movements.length = 1 := by
  refine ⟨rfl, ⟨?_, ?_, ?_⟩, rfl⟩
  · exact { sampleProduct with stock := -5, updated_at := "iso" }
  · decide
  · decide

/-- `stocksNonneg` only depends on the products table. -/
theorem stocksNonneg_of_products_eq {db db' : DB} (h : db'.products = db.products)
    (hok : stocksNonneg db) : stocksNonneg db' := by
  intro p hp
  rw [h] at hp
  exact hok p hp

/-- Writing a non-negative stock preserves non-negativity. -/
theorem stocksNonneg_setStock {db : DB} (hok : stocksNonneg db) (pid : String)
    {s : Int} (hs : 0 ≤ s) : stocksNonneg (setStock db pid s) := by
  intro p hp
  rcases List.mem_map.1 hp with ⟨q, hq, rfl⟩
  by_cases hid : (q.id == pid) = true
  · simpa [hid] using hs
  · simpa [hid] using hok q hq

/-- A full-row update writing a non-negative stock preserves
non-negativity. -/
theorem stocksNonneg_applyProductUpdate {db : DB} (hok : stocksNonneg db)
    (product : Product) (nowIso : String) (hp : 0 ≤ product.stock) :
    stocksNonneg (applyProductUpdate db product nowIso) := by
  intro p hp'
  rcases List.mem_map.1 hp' with ⟨q, hq, rfl⟩
  by_cases hid : (q.id == product.id) = true
  · simpa [hid] using hp
  · simpa [hid] using hok q hq

/-- Inserting a row with non-negative stock preserves non-negativity. -/
theorem stocksNonneg_cons {db : DB} (hok : stocksNonneg db) (data : Product)
    (hd : 0 ≤ data.stock) :
    stocksNonneg ({ db with products := data :: db.products } : DB) := by
  intro p hp
  rcases List.mem_cons.1 hp with rfl | hp
  · exact hd
  · exact hok p hp

/-- A ledger insert never changes the products table. -/
theorem stocksNonneg_addStockMovement {db : DB} (row : MovementRow) (e : Option String)
    (hok : stocksNonneg db) : stocksNonneg (addStockMovement db row e).1 := by
  cases e with
  | some err => exact hok
  | none => exact stocksNonneg_of_products_eq rfl hok

/-- One approval item with a non-negative quantity preserves stock
non-negativity. -/
theorem approveItem_stocksNonneg (db : DB) (adminUser : User) (ref : String)
    (item : InventoryItem) (e : ItemErrs) (hok : stocksNonneg db)
    (hq : 0 ≤ item.quantity) :
    stocksNonneg (approveItem db adminUser ref item e).1 := by
  obtain ⟨fe, ue, le⟩ := e
  cases fe with
  | some err => exact hok
  | none =>
    cases hf : findProduct db item.productId with
    | none => simpa [approveItem, hf] using hok
    | some p =>
      cases ue with
      | some err => simpa [approveItem, hf] using hok
      | none =>
        have h1 := stocksNonneg_setStock hok item.productId hq
        have h2 : stocksNonneg (addStockMovement (setStock db item.productId item.quantity)
            { product_id := item.productId
              product_name := item.name
              user_id := adminUser.id
              user_name := adminUser.firstName ++ " " ++ adminUser.lastName ++ " (Approbation)"
              change_type := ChangeType.submission
              quantity_change := item.quantity - p.stock
              old_stock_level := p.stock
              new_stock_level := item.quantity
              transaction_ref := ref } le).1 := stocksNonneg_addStockMovement _ le h1
        simpa [approveItem, hf] using h2

/-- The approval batch preserves stock non-negativity when all submitted
quantities are non-negative. -/
theorem approveItems_stocksNonneg (adminUser : User) (ref : String)
    (items : List InventoryItem) :
    ∀ (db : DB) (errOf : Nat → ItemErrs) (i : Nat), stocksNonneg db →
      (∀ it ∈ items, 0 ≤ it.quantity) →
      stocksNonneg (approveItems db adminUser ref items errOf i).1 := by
  induction items with
  | nil => intro db errOf i hok _; exact hok
  | cons item rest ih =>
    intro db errOf i hok hqs
    exact ih _ errOf (i + 1)
      (approveItem_stocksNonneg db adminUser ref item (errOf i) hok
        (hqs item (List.mem_cons_self item rest)))
      (fun it hit => hqs it (List.mem_cons_of_mem item hit))

/-- One bulk-inventory pair with a non-negative target stock preserves
stock non-negativity. -/
theorem setDepotItem_stocksNonneg (db : DB) (depotName : String) (adminUser : User)
    (ref : String) (product : Product) (newStock : Int) (newId createdAt : String)
    (e : SetItemErrs) (hok : stocksNonneg db) (hs : 0 ≤ newStock) :
    stocksNonneg
      (setDepotItem db depotName adminUser ref product newStock newId createdAt e).1 := by
  obtain ⟨fe, we, le⟩ := e
  by_cases hfe : fe.isSome
  · simpa [setDepotItem, hfe] using hok
  · have hfe' : fe.isSome = false := by simpa using hfe
    cases hfind : findByCodeAndLocation db product.code depotName with
    | nil =>
      by_cases hpos : newStock > 0
      · cases we with
        | some err => simpa [setDepotItem, hfe', hfind, hpos] using hok
        | none =>
          have h1 : stocksNonneg ({ db with products :=
              ({ product with
                 id := newId
                 location := depotName
                 stock := newStock
                 imageUrl := none
                 safetySheetUrl := none
                 created_at := createdAt
                 updated_at := createdAt } : Product) :: db.products } : DB) :=
            stocksNonneg_cons hok _ hs
          have h2 : stocksNonneg (addStockMovement
              ({ db with products :=
                ({ product with
                   id := newId
                   location := depotName
                   stock := newStock
                   imageUrl := none
                   safetySheetUrl := none
                   created_at := createdAt
                   updated_at := createdAt } : Product) :: db.products } : DB)
              { product_id := newId
                product_name := product.name
                user_id := adminUser.id
                user_name := adminUser.firstName ++ " " ++ adminUser.lastName
                change_type := ChangeType.initial
                quantity_change := newStock
                old_stock_level := 0
                new_stock_level := newStock
                transaction_ref := ref } le).1 := stocksNonneg_addStockMovement _ le h1
          simpa [setDepotItem, hfe', hfind, hpos] using h2
      · simpa [setDepotItem, hfe', hfind, hpos] using hok
    | cons existingProduct tail =>
      cases tail with
      | nil =>
        by_cases hne : existingProduct.stock ≠ newStock
        · cases we with
          | some err =>
            have h2 := stocksNonneg_addStockMovement
              { product_id := existingProduct.id
                product_name := existingProduct.name
                user_id := adminUser.id
                user_name := adminUser.firstName ++ " " ++ adminUser.lastName
                change_type := ChangeType.inventory_count
                quantity_change := newStock - existingProduct.stock
                old_stock_level := existingProduct.stock
                new_stock_level := newStock
                transaction_ref := ref } le hok
            simpa [setDepotItem, hfe', hfind, hne] using h2
          | none =>
            have h2 := stocksNonneg_addStockMovement
              { product_id := existingProduct.id
                product_name := existingProduct.name
                user_id := adminUser.id
                user_name := adminUser.firstName ++ " " ++ adminUser.lastName
                change_type := ChangeType.inventory_count
                quantity_change := newStock - existingProduct.stock
                old_stock_level := existingProduct.stock
                new_stock_level := newStock
                transaction_ref := ref } le
              (stocksNonneg_setStock hok existingProduct.id hs)
            simpa [setDepotItem, hfe', hfind, hne] using h2
        · simpa [setDepotItem, hfe', hfind, hne] using hok
      | cons b tail2 => simpa [setDepotItem, hfe', hfind] using hok

/-- The bulk-inventory batch preserves stock non-negativity when all
target stocks are non-negative. -/
theorem setDepotItems_stocksNonneg (depotName : String) (adminUser : User) (ref : String)
    (inventory : List (Product × Int)) :
    ∀ (db : DB) (errOf : Nat → SetItemErrs) (newIdOf : Nat → String)
      (createdAt : String) (i : Nat), stocksNonneg db →
      (∀ pair ∈ inventory, 0 ≤ pair.2) →
      stocksNonneg (setDepotItems db depotName adminUser ref inventory errOf newIdOf
        createdAt i).1 := by
  induction inventory with
  | nil => intro db errOf newIdOf createdAt i hok _; exact hok
  | cons pair rest ih =>
    intro db errOf newIdOf createdAt i hok hss
    exact ih _ errOf newIdOf createdAt (i + 1)
      (setDepotItem_stocksNonneg db depotName adminUser ref pair.1 pair.2 (newIdOf i)
        createdAt (errOf i) hok (hss pair (List.mem_cons_self pair rest)))
      (fun q hq => hss q (List.mem_cons_of_mem pair hq))

/-- C1 (amended): only depot consumption and admin entry/exit reject a
would-be-negative result before any write (returning the French error
with no state change and no ledger row) — and these two paths do keep all
stocks ≥ 0; product create, product edit, submission approval and bulk
inventory set perform no negativity check and persist the supplied value
as-is, so after them all stocks are ≥ 0 exactly under the assumption
that the supplied stock values and quantities are ≥ 0. -/
theorem stock_nonneg_guarded_paths_only :
    (∀ (db : DB) (product : Product) (quantity : Int) (user : User) (now : Nat)
      (ue le : Option String),
      product.stock - quantity < 0 →
      depotRecordConsumption db product quantity user now ue le =
        (db, some "La quantité consommée ne peut pas dépasser le stock disponible.")) ∧
    (∀ (db : DB) (productId : String) (quantity : Int) (mt : AdminMovementType)
      (adminUser : User) (now : Nat) (ue le : Option String) (p : Product),
      findProduct db productId = some p →
      p.stock + adminQuantityChange mt quantity < 0 →
      adminCreateMovement db productId quantity mt adminUser now none ue le =
        (db, some "Le stock ne peut pas être négatif.")) ∧
    (∀ (db : DB) (product : Product) (quantity : Int) (user : User) (now : Nat)
      (ue le : Option String), stocksNonneg db →
      stocksNonneg (depotRecordConsumption db product quantity user now ue le).1) ∧
    (∀ (db : DB) (productId : String) (quantity : Int) (mt : AdminMovementType)
      (adminUser : User) (now : Nat) (fe ue le : Option String), stocksNonneg db →
      stocksNonneg (adminCreateMovement db productId quantity mt adminUser now fe ue le).1) ∧
    (∀ (db : DB) (product : Product) (user : User) (now : Nat)
      (newId createdAt : String) (ie le : Option String), stocksNonneg db →
      0 ≤ product.stock →
      stocksNonneg (addProduct db product user now newId createdAt ie le).1) ∧
    (∀ (db : DB) (product : Product) (user : User) (now : Nat) (nowIso : String)
      (fe ue le : Option String), stocksNonneg db → 0 ≤ product.stock →
      stocksNonneg (updateProduct db product user now nowIso fe ue le).1) ∧
    (∀ (db : DB) (sub : InventorySubmission) (adminUser : User) (now : Nat)
      (se re : Option String) (errOf : Nat → ItemErrs), stocksNonneg db →
      (∀ it ∈ sub.items, 0 ≤ it.quantity) →
      stocksNonneg (approveSubmission db sub adminUser now se re errOf).1) ∧
    (∀ (db : DB) (depotName : String) (inventory : List (Product × Int))
      (adminUser : User) (now : Nat) (errOf : Nat → SetItemErrs)
      (newIdOf : Nat → String) (createdAt : String), stocksNonneg db →
      (∀ pair ∈ inventory, 0 ≤ pair.2) →
      stocksNonneg (setDepotInventory db depotName inventory adminUser now errOf newIdOf
        createdAt).1) := by
  refine ⟨?_, ?_, ?_, ?_, ?_, ?_, ?_, ?_⟩
  · intro db product quantity user now ue le h
    simp [depotRecordConsumption, h]
  · intro db productId quantity mt adminUser now ue le p hf h
    simp [adminCreateMovement, hf, h]
  · intro db product quantity user now ue le hok
    by_cases hlt : product.stock - quantity < 0
    · simpa [depotRecordConsumption, hlt] using hok
    · cases ue with
      | some e => simpa [depotRecordConsumption, hlt] using hok
      | none =>
        have h1 := stocksNonneg_setStock hok product.id (Int.not_lt.1 hlt)
        have h2 : stocksNonneg (addStockMovement
            (setStock db product.id (product.stock - quantity))
            { product_id := product.id
              product_name := product.name
              user_id := user.id
              user_name := user.firstName ++ " " ++ user.lastName
              change_type := ChangeType.consumption
              quantity_change := -quantity
              old_stock_level := product.stock
              new_stock_level := product.stock - quantity
              transaction_ref := generateTransactionRef "CON" now } le).1 := stocksNonneg_addStockMovement _ le h1
        simpa [depotRecordConsumption, hlt] using h2
  · intro db productId quantity mt adminUser now fe ue le hok
    by_cases hfe : fe.isSome
    · simpa [adminCreateMovement, hfe] using hok
    · have hfe' : fe.isSome = false := by simpa using hfe
      cases hf : findProduct db productId with
      | none => simpa [adminCreateMovement, hfe', hf] using hok
      | some p =>
        by_cases hlt : p.stock + adminQuantityChange mt quantity < 0
        · simpa [adminCreateMovement, hfe', hf, hlt] using hok
        · cases ue with
          | some e => simpa [adminCreateMovement, hfe', hf, hlt] using hok
          | none =>
            have h1 := stocksNonneg_setStock hok productId (Int.not_lt.1 hlt)
            cases mt with
            | admin_entry =>
              have h2 : stocksNonneg (addStockMovement
                  (setStock db productId
                    (p.stock + adminQuantityChange AdminMovementType.admin_entry quantity))
                  { product_id := p.id
                    product_name := p.name
                    user_id := adminUser.id
                    user_name := adminUser.firstName ++ " " ++ adminUser.lastName
                    change_type := ChangeType.admin_entry
                    quantity_change :=
                      adminQuantityChange AdminMovementType.admin_entry quantity
                    old_stock_level := p.stock
                    new_stock_level :=
                      p.stock + adminQuantityChange AdminMovementType.admin_entry quantity
                    transaction_ref := generateTransactionRef "ENT" now } le).1 := stocksNonneg_addStockMovement _ le h1
              simpa [adminCreateMovement, hfe', hf, hlt] using h2
            | admin_exit =>
              have h2 : stocksNonneg (addStockMovement
                  (setStock db productId
                    (p.stock + adminQuantityChange AdminMovementType.admin_exit quantity))
                  { product_id := p.id
                    product_name := p.name
                    user_id := adminUser.id
                    user_name := adminUser.firstName ++ " " ++ adminUser.lastName
                    change_type := ChangeType.admin_exit
                    quantity_change :=
                      adminQuantityChange AdminMovementType.admin_exit quantity
                    old_stock_level := p.stock
                    new_stock_level :=
                      p.stock + adminQuantityChange AdminMovementType.admin_exit quantity
                    transaction_ref := generateTransactionRef "SOR" now } le).1 := stocksNonneg_addStockMovement _ le h1
              simpa [adminCreateMovement, hfe', hf, hlt] using h2
  · intro db product user now newId createdAt ie le hok hp
    cases ie with
    | some e => exact hok
    | none =>
      have h1 : stocksNonneg ({ db with products :=
          ({ product with
             id := newId
             created_at := createdAt
             updated_at := createdAt } : Product) :: db.products } : DB) :=
        stocksNonneg_cons hok _ hp
      have h2 : stocksNonneg (addStockMovement
          ({ db with products :=
            ({ product with
               id := newId
               created_at := createdAt
               updated_at := createdAt } : Product) :: db.products } : DB)
          { product_id := newId
            product_name := product.name
            user_id := user.id
            user_name := user.firstName ++ " " ++ user.lastName
            change_type := ChangeType.initial
            quantity_change := product.stock
            old_stock_level := 0
            new_stock_level := product.stock
            transaction_ref := generateTransactionRef "CRE" now } le).1 := stocksNonneg_addStockMovement _ le h1
      exact h2
  · intro db product user now nowIso fe ue le hok hp
    cases fe with
    | some e => exact hok
    | none =>
      cases hf : findProduct db product.id with
      | none => simpa [updateProduct, hf] using hok
      | some orig =>
        cases ue with
        | some e => simpa [updateProduct, hf] using hok
        | none =>
          have h1 := stocksNonneg_applyProductUpdate hok product nowIso hp
          by_cases hq : product.stock - orig.stock ≠ 0
          · have h2 : stocksNonneg (addStockMovement (applyProductUpdate db product nowIso)
                { product_id := product.id
                  product_name := product.name
                  user_id := user.id
                  user_name := user.firstName ++ " " ++ user.lastName
                  change_type := ChangeType.update
                  quantity_change := product.stock - orig.stock
                  old_stock_level := orig.stock
                  new_stock_level := product.stock
                  transaction_ref := generateTransactionRef "MAJ" now } le).1 := stocksNonneg_addStockMovement _ le h1
            simpa [updateProduct, hf, hq] using h2
          · simpa [updateProduct, hf, hq] using h1
  · intro db sub adminUser now se re errOf hok hqs
    cases se with
    | some e => exact hok
    | none =>
      have hbatch := approveItems_stocksNonneg adminUser (generateTransactionRef "INV" now)
        sub.items (setSubmissionStatus db sub.id SubmissionStatus.approved) errOf 0
        (stocksNonneg_of_products_eq rfl hok) hqs
      by_cases hthrew : (approveItems (setSubmissionStatus db sub.id SubmissionStatus.approved)
          adminUser (generateTransactionRef "INV" now) sub.items errOf 0).2 = true
      · cases re with
        | some e => simpa [approveSubmission, hthrew] using hbatch
        | none =>
          have hrev : stocksNonneg (setSubmissionStatus
              (approveItems (setSubmissionStatus db sub.id SubmissionStatus.approved)
                adminUser (generateTransactionRef "INV" now) sub.items errOf 0).1
              sub.id SubmissionStatus.pending) :=
            stocksNonneg_of_products_eq rfl hbatch
          simpa [approveSubmission, hthrew] using hrev
      · have hthrew' : (approveItems (setSubmissionStatus db sub.id SubmissionStatus.approved)
            adminUser (generateTransactionRef "INV" now) sub.items errOf 0).2 = false := by
          simpa using hthrew
        simpa [approveSubmission, hthrew'] using hbatch
  · intro db depotName inventory adminUser now errOf newIdOf createdAt hok hss
    have hbatch := setDepotItems_stocksNonneg depotName adminUser
      (generateTransactionRef "INV" now) inventory db errOf newIdOf createdAt 0 hok hss
    by_cases hthrew : (setDepotItems db depotName adminUser
        (generateTransactionRef "INV" now) inventory errOf newIdOf createdAt 0).2 = true
    · simpa [setDepotInventory, hthrew] using hbatch
    · have hthrew' : (setDepotItems db depotName adminUser
          (generateTransactionRef "INV" now) inventory errOf newIdOf createdAt 0).2 = false := by
        simpa using hthrew
      simpa [setDepotInventory, hthrew'] using hbatch

/-- C1 (amended) witness: consuming 20 of 7 is rejected with the French
message and no write; an admin exit of 20 is likewise rejected; and the
guarded and unguarded paths keep all stocks ≥ 0 at concrete inputs. -/
theorem stock_nonneg_guarded_paths_only_witness :
    depotRecordConsumption sampleDB sampleProduct 20 sampleUser 7 none none =
      (sampleDB, some "La quantité consommée ne peut pas dépasser le stock disponible.") ∧
    adminCreateMovement sampleDB "p1" 20 AdminMovementType.admin_exit sampleUser 7
      none none none = (sampleDB, some "Le stock ne peut pas être négatif.") ∧
    stocksNonneg (depotRecordConsumption sampleDB sampleProduct 3 sampleUser 7 none none).1 ∧
    stocksNonneg (adminCreateMovement sampleDB "p1" 2 AdminMovementType.admin_exit
      sampleUser 7 none none none).1 ∧
    stocksNonneg (addProduct sampleDB sampleProduct sampleUser 7 "p9" "c9" none none).1 ∧
    stocksNonneg (updateProduct sampleDB { sampleProduct with stock := 12 } sampleUser 7 "i"
      none none none).1 ∧
    stocksNonneg (approveSubmission sampleDBSub sampleSubmission sampleUser 7 none none
      (fun _ => noItemErrs)).1 ∧
    stocksNonneg (setDepotInventory sampleDB "Labo B" [(sampleProduct, 5)] sampleUser 7
      (fun _ => noSetErrs) (fun _ => "n0") "c9").1 := by
  have h0 : stocksNonneg sampleDB := by
    intro p hp
    simp only [sampleDB] at hp
    rcases List.mem_singleton.1 hp with rfl
    decide
  have h0' : stocksNonneg sampleDBSub := by
    intro p hp
    simp only [sampleDBSub] at hp
    rcases List.mem_singleton.1 hp with rfl
    decide
  exact ⟨stock_nonneg_guarded_paths_only.1 sampleDB sampleProduct 20 sampleUser 7 none none
      (by decide),
    stock_nonneg_guarded_paths_only.2.1 sampleDB "p1" 20 AdminMovementType.admin_exit
      sampleUser 7 none none sampleProduct (by decide) (by decide),
    stock_nonneg_guarded_paths_only.2.2.1 sampleDB sampleProduct 3 sampleUser 7 none none h0,
    stock_nonneg_guarded_paths_only.2.2.2.1 sampleDB "p1" 2 AdminMovementType.admin_exit
      sampleUser 7 none none none h0,
    stock_nonneg_guarded_paths_only.2.2.2.2.1 sampleDB sampleProduct sampleUser 7 "p9" "c9"
      none none h0 (by decide),
    stock_nonneg_guarded_paths_only.2.2.2.2.2.1 sampleDB _ sampleUser 7 "i" none none none
      h0 (by decide),
    stock_nonneg_guarded_paths_only.2.2.2.2.2.2.1 sampleDBSub sampleSubmission sampleUser 7
      none none (fun _ => noItemErrs) h0' (by decide),
    stock_nonneg_guarded_paths_only.2.2.2.2.2.2.2 sampleDB "Labo B" [(sampleProduct, 5)]
      sampleUser 7 (fun _ => noSetErrs) (fun _ => "n0") "c9" h0 (by decide)⟩

end Chimie
